import Mathlib

/-!
Shallow embedding of the piped subprocess manager in src/lib/misc/spawn.c
(libwebsockets): lws_create_basic_wsi, lws_spawn_piped_destroy,
lws_spawn_piped_kill_child_process and lws_spawn_piped.

System calls and the handful of reactor helpers that live outside this file
are modelled by explicit oracles (structures of results) so that every
definition is executable.  Machine pids and file descriptors are Int, counters
are Nat.
-/

set_option linter.unusedVariables false

/-- On unix LWS_SOCK_INVALID is (-1). -/
def LWS_SOCK_INVALID : Int := -1

/-- A descriptor object (struct lws), restricted to the fields spawn.c touches. -/
structure Wsi where
  lsp_channel : Nat
  sockfd : Int
  protocol : Option Nat
  vhostBound : Bool
  inFdsTable : Bool
  parentLinked : Bool
  deriving DecidableEq, Repr

/-- The spawn handle struct lws_spawn_piped, with the fields spawn.c reasons
about.  The six pipe fds pipe_fds[n][0] (read end) and pipe_fds[n][1]
(write end) for channels n = 0 (stdin), 1 (stdout), 2 (stderr) are unrolled
as pf00 .. pf21.  Membership of the dll in an owner list and a scheduled sul
timer are tracked as booleans. -/
structure LwsSpawnPiped where
  pf00 : Int
  pf01 : Int
  pf10 : Int
  pf11 : Int
  pf20 : Int
  pf21 : Int
  stdwsi0 : Option Wsi
  stdwsi1 : Option Wsi
  stdwsi2 : Option Wsi
  child_pid : Int
  do_setpgrp : Bool
  inOwner : Bool
  sulScheduled : Bool
  deriving DecidableEq, Repr

/-- Modelled from the spec: lws_dll2_remove (intrusive list helper, not under
src/) removes the handle from its owner collection; removing an unlisted
handle is a safe no-op. -/
def dll2Remove (l : LwsSpawnPiped) : LwsSpawnPiped :=
  { l with inOwner := false }

/-- Modelled from the spec: lws_sul_schedule with the cancel sentinel
(LWS_SET_TIMER_USEC_CANCEL) cancels any scheduled deadline; always safe,
also against a handle with no active deadline. -/
def sulCancel (l : LwsSpawnPiped) : LwsSpawnPiped :=
  { l with sulScheduled := false }

/-- Result of lws_spawn_piped_destroy: the updated handle, the fds that were
closed (in order), and how many ZERO FD anomaly logs were emitted. -/
structure DestroyOut where
  lsp : LwsSpawnPiped
  closes : List Int
  zeroAnomalies : Nat
  deriving DecidableEq, Repr

/-- One channel of the destroy loop body: given the parent-retained fd
(pipe_fds[n][n == 0 ? 1 : 0]), log an anomaly if it is zero, and close it
and replace it by LWS_SOCK_INVALID if it is nonnegative. -/
def destroyChannelFd (fd : Int) : Int × List Int × Nat :=
  (if 0 ≤ fd then LWS_SOCK_INVALID else fd,
   if 0 ≤ fd then [fd] else [],
   if fd = 0 then 1 else 0)

/-- lws_spawn_piped_destroy: close each still-valid parent-retained fd
(pf01, pf10, pf20), set it to LWS_SOCK_INVALID, then remove the handle from
its owner list and cancel any scheduled timeout. -/
def lws_spawn_piped_destroy (lsp : LwsSpawnPiped) : DestroyOut :=
  let r0 := destroyChannelFd lsp.pf01
  let r1 := destroyChannelFd lsp.pf10
  let r2 := destroyChannelFd lsp.pf20
  { lsp := sulCancel (dll2Remove
      { lsp with pf01 := r0.1, pf10 := r1.1, pf20 := r2.1 }),
    closes := r0.2.1 ++ r1.2.1 ++ r2.2.1,
    zeroAnomalies := r0.2.2 + r1.2.2 + r2.2.2 }

/-- The three signals used by the escalation in
lws_spawn_piped_kill_child_process. -/
inductive Sig where
  | sigterm
  | sigpipe
  | sigkill
  deriving DecidableEq, Repr

/-- Oracle for lws_spawn_piped_kill_child_process: the result of the initial
waitpid(child_pid, WNOHANG), whether each kill(2) in the escalation would
succeed, and the results of the wait-drain loop iterations, an entry
(g, d) per iteration holding waitpid(-pid, WNOHANG) and
waitpid(pid, WNOHANG); once the list is exhausted further waits report
no child (-1). -/
structure KillOS where
  wait0 : Int
  killGroupTerm : Bool
  killDirectTerm : Bool
  killDirectPipe : Bool
  killDirectKill : Bool
  drain : List (Int × Int)
  deriving DecidableEq, Repr

/-- The effective n of one drain-loop iteration: the result of
waitpid(-pid, WNOHANG), or if that was not positive, of
waitpid(pid, WNOHANG). -/
def effWait (r : Int × Int) : Int :=
  if 0 < r.1 then r.1 else r.2

/-- Number of iterations the wait-drain loop in
lws_spawn_piped_kill_child_process performs, given the per-iteration wait
results: the loop repeats while the effective n of the iteration is
positive (a child was reaped), and a final iteration seeing no reapable
child ends it. -/
def drainIters : List (Int × Int) → Nat
  | [] => 1
  | r :: rest => if 0 < effWait r then drainIters rest + 1 else 1

/-- The waitpid targets called by the wait-drain loop, in order: each
iteration calls waitpid on -pid, and on pid as well when the first call was
not positive. -/
def drainCalls (pid : Int) : List (Int × Int) → List Int
  | [] => [-pid, pid]
  | r :: rest =>
    let here := if 0 < r.1 then [-pid] else [-pid, pid]
    if 0 < effWait r then here ++ drainCalls pid rest else here

/-- Result of lws_spawn_piped_kill_child_process: return value, updated
handle, the kill(2) calls issued as (target, signal) pairs in order, the
waitpid targets in order, and the number of drain iterations. -/
structure KillOut where
  rv : Int
  lsp : LwsSpawnPiped
  kills : List (Int × Sig)
  waitCalls : List Int
  drainIterations : Nat
  deriving DecidableEq, Repr

/-- lws_spawn_piped_kill_child_process: return 1 at once if child_pid <= 0;
reap-and-return if the initial nonblocking wait succeeds; otherwise
SIGTERM the process group -child_pid, on failure SIGTERM the bare pid, on
failure SIGPIPE, on failure SIGKILL (whose own failure is only logged),
then drain nonblocking waits; child_pid becomes -1 and the return value
is 0 in every signalling path. -/
def lws_spawn_piped_kill_child_process (os : KillOS) (lsp : LwsSpawnPiped) :
    KillOut :=
  if lsp.child_pid ≤ 0 then
    { rv := 1, lsp := lsp, kills := [], waitCalls := [], drainIterations := 0 }
  else if 0 < os.wait0 then
    { rv := 0, lsp := { lsp with child_pid := -1 }, kills := [],
      waitCalls := [lsp.child_pid], drainIterations := 0 }
  else
    let p := lsp.child_pid
    let kills :=
      if os.killGroupTerm then [(-p, Sig.sigterm)]
      else if os.killDirectTerm then [(-p, Sig.sigterm), (p, Sig.sigterm)]
      else if os.killDirectPipe then
        [(-p, Sig.sigterm), (p, Sig.sigterm), (p, Sig.sigpipe)]
      else
        [(-p, Sig.sigterm), (p, Sig.sigterm), (p, Sig.sigpipe),
         (p, Sig.sigkill)]
    { rv := 0, lsp := { lsp with child_pid := -1 }, kills := kills,
      waitCalls := p :: drainCalls p os.drain,
      drainIterations := drainIters os.drain }

/-- Splits a KEY=VALUE entry, held as a character list, at its first
equals sign, as the strchr / *p++ = 0 sequence in the child branch does;
none when the entry has no equals sign (there strchr returns NULL and the
store through it crashes the child). -/
def splitEnvEntry : List Char → Option (List Char × List Char)
  | [] => none
  | c :: rest =>
    if c = '=' then some ([], rest)
    else
      match splitEnvEntry rest with
      | none => none
      | some (k, v) => some (c :: k, v)

/-- Modelled from the spec: setenv(key, value, 1) (libc, not under src/)
sets key to value in the process environment, overwriting any existing
entry. -/
def setenvOverwrite (env : List (List Char × List Char)) (k v : List Char) :
    List (List Char × List Char) :=
  if env.any (fun p => p.1 = k) then
    env.map (fun p => if p.1 = k then (k, v) else p)
  else env ++ [(k, v)]

/-- Renders an environment of (key, value) pairs as the KEY=VALUE entries
the replaced program observes in environ. -/
def renderEnv (env : List (List Char × List Char)) : List (List Char) :=
  env.map (fun p => p.1 ++ '=' :: p.2)

/-- The environment of the child at program replacement on the
fork()/setenv/execvp path.  The setenv loop in the child branch runs
for (m = 0; m < n; m++) where n is the leftover counter of the preceding
registration loop, so it always applies exactly the first THREE entries of
env_array: none (a crash reading past the terminator, or through a NULL
strchr result) when env_array has fewer than three well-formed entries,
and the inherited environment updated by entries 0, 1 and 2 otherwise.
Entries from index 3 on are never applied on this path. -/
def childEnvSetenvPath (base : List (List Char × List Char))
    (env_array : List (List Char)) : Option (List (List Char)) :=
  match env_array with
  | e0 :: e1 :: e2 :: _ =>
    match splitEnvEntry e0, splitEnvEntry e1, splitEnvEntry e2 with
    | some p0, some p1, some p2 =>
      some (renderEnv (setenvOverwrite (setenvOverwrite
        (setenvOverwrite base p0.1 p0.2) p1.1 p1.2) p2.1 p2.2))
    | _, _, _ => none
  | _ => none

/-- The environment of the child at program replacement on the
vfork()/execvpe path: execvpe receives env_array itself, so the child sees
exactly those strings. -/
def childEnvExecvpePath (env_array : List (List Char)) : List (List Char) :=
  env_array

/-- The environment the child sees at program replacement, per platform
variant: the whole list via execvpe under LWS_HAVE_VFORK and
LWS_HAVE_EXECVPE, the setenv path otherwise. -/
def childEnvAtExec (useVfork : Bool) (base : List (List Char × List Char))
    (env_array : List (List Char)) : Option (List (List Char)) :=
  if useVfork then some (childEnvExecvpePath env_array)
  else childEnvSetenvPath base env_array

/-- The reactor context (struct lws_context), restricted to what spawn.c
reads and writes: the head of the vhost list carrying its default protocol
(none models a NULL vhost_list; some protos models a first vhost whose
protocols field is protos, itself none when NULL), the per-thread fds
table count for the chosen tsi, the per-thread fd limit, the process-wide
live wsi counter, and whether the event loop backend has a sock_accept
hook. -/
structure LwsContext where
  vhost_protocols : Option (Option Nat)
  fds_count : Nat
  fd_limit_per_thread : Nat
  count_wsi_allocated : Nat
  has_sock_accept : Bool
  deriving DecidableEq, Repr

/-- The unsigned 32-bit comparison
(unsigned int)fds_count == fd_limit_per_thread - 1 from
lws_create_basic_wsi. -/
def atFdLimit (ctx : LwsContext) : Bool :=
  ctx.fds_count % 4294967296 == (ctx.fd_limit_per_thread + 4294967295) % 4294967296

/-- Why lws_create_basic_wsi returned NULL: vhost_list was NULL, the
per-thread fds table was at capacity, or lws_zalloc failed. -/
inductive FactoryErr where
  | noVhost
  | noSpace
  | oom
  deriving DecidableEq, Repr

/-- lws_create_basic_wsi: NULL if the context has no vhost; NULL (no space
for new conn) if the per-thread fds count sits at fd_limit_per_thread - 1;
NULL if allocation fails; otherwise a zeroed wsi in the established role
with an invalid sockfd, and count_wsi_allocated incremented. -/
def lws_create_basic_wsi (ctx : LwsContext) (mallocOk : Bool) :
    Except FactoryErr (Wsi × LwsContext) :=
  if ctx.vhost_protocols.isNone then .error .noVhost
  else if atFdLimit ctx then .error .noSpace
  else if ¬ mallocOk then .error .oom
  else .ok ({ lsp_channel := 0, sockfd := LWS_SOCK_INVALID, protocol := none,
              vhostBound := false, inFdsTable := false, parentLinked := false },
            { ctx with count_wsi_allocated := ctx.count_wsi_allocated + 1 })

/-- Modelled from the spec: the success effect of
__insert_wsi_socket_into_fds (reactor per-thread poll-table insertion, not
under src/): the wsi enters the per-thread fds table and fds_count is
incremented.  Whether the insertion fails instead (leaving the state
alone) is decided by the oracle at the call site. -/
def insertWsiSocketIntoFds (ctx : LwsContext) (w : Wsi) : LwsContext × Wsi :=
  ({ ctx with fds_count := ctx.fds_count + 1 }, { w with inFdsTable := true })

/-- Modelled from the spec: __remove_wsi_socket_from_fds (reactor
per-thread poll-table removal, not under src/) removes one registered wsi,
decrementing fds_count. -/
def removeWsiSocketFromFds (ctx : LwsContext) : LwsContext :=
  { ctx with fds_count := ctx.fds_count - 1 }

/-- Modelled from the spec: __lws_free_wsi (generic connection-object
destruction, not under src/) frees the descriptor object, undoing the
count_wsi_allocated increment of lws_create_basic_wsi; it does not close
the raw fd the descriptor was bound to. -/
def lwsFreeWsi (ctx : LwsContext) : LwsContext :=
  { ctx with count_wsi_allocated := ctx.count_wsi_allocated - 1 }

/-- Oracle for one lws_spawn_piped call: result of
lws_vhost_name_to_protocol when a protocol name is supplied; the fds each
pipe(2) would produce (none = pipe failure); whether each lws_zalloc,
fcntl(F_SETFL, O_NONBLOCK), sock_accept hook, fds-table insertion and
lws_change_pollfd succeeds; whether fork succeeds and the (positive) child
pid forkPid + 1 it then returns in the parent; whether each child-side
dup2 succeeds; the platform variant (useVfork selects the
vfork()/execvpe path), the inherited process environment for the setenv
path, and whether program replacement returns control (= fails). -/
structure SpawnOS where
  protoLookup : Option Nat
  pipe0 : Option (Int × Int)
  pipe1 : Option (Int × Int)
  pipe2 : Option (Int × Int)
  malloc0 : Bool
  malloc1 : Bool
  malloc2 : Bool
  fcntl0 : Bool
  fcntl1 : Bool
  fcntl2 : Bool
  sockAccept0 : Bool
  sockAccept1 : Bool
  sockAccept2 : Bool
  insert0 : Bool
  insert1 : Bool
  insert2 : Bool
  pollIn : Bool
  pollOut : Bool
  pollErr : Bool
  forkOk : Bool
  forkPid : Nat
  dup2a : Bool
  dup2b : Bool
  dup2c : Bool
  useVfork : Bool
  baseEnv : List (List Char × List Char)
  execReturns : Bool
  deriving DecidableEq, Repr

/-- The non-oracle arguments of lws_spawn_piped this embedding tracks:
whether an owner list and an opt_parent wsi are supplied, whether a
protocol name pcon is supplied, the timeout, and the env_array KEY=VALUE
strings. -/
structure SpawnIn where
  owner : Bool
  opt_parent : Bool
  pcon : Bool
  timeout : Int
  env_array : List (List Char)
  deriving DecidableEq, Repr

/-- What became of the forked child: its program image was replaced (with
the given environ), it exited with a status, it crashed in the setenv
loop, or it fell through goto bail3 and returned the given value to the
copy of caller logic running inside the child process. -/
inductive ChildOutcome where
  | execed (env : List (List Char))
  | exited (status : Nat)
  | crashed
  | returnedToCaller (rv : Int)
  deriving DecidableEq, Repr

/-- Process-state calls made after fork by either process, and the fd
redirection calls of the child. -/
inductive PCall where
  | prctlPdeathsig
  | setpgrpCall
  | chdirTmp
  | cloexec (fd : Int)
  | dup2Call (src : Int) (dst : Nat)
  deriving DecidableEq, Repr

/-- Everything one lws_spawn_piped call did, in both processes: the parent
return value, the final context and handle as the parent sees them, the
fds handed out by pipe(2) in order, the close(2) calls of the parent
process in order, the process-state calls of the parent process, the
factory failures encountered, and (when a child process came to exist) its
outcome, its process-state calls and its close(2) calls. -/
structure SpawnResult where
  parentRv : Int
  ctx : LwsContext
  lsp : LwsSpawnPiped
  opened : List Int
  closes : List Int
  parentCalls : List PCall
  factoryErrs : List FactoryErr
  child : Option ChildOutcome
  childCalls : List PCall
  childCloses : List Int
  deriving DecidableEq, Repr

/-- The running state threaded through the phases of lws_spawn_piped. -/
structure SpawnSt where
  ctx : LwsContext
  lsp : LwsSpawnPiped
  opened : List Int
  factoryErrs : List FactoryErr
  deriving DecidableEq, Repr

/-- The close(2) calls of the bail1 label: both halves of every pipe whose
recorded fd is still nonnegative, in index order. -/
def closeIfValid (fd : Int) : List Int :=
  if 0 ≤ fd then [fd] else []

/-- All six pipe_fds slots of a handle in index order
[0][0], [0][1], [1][0], [1][1], [2][0], [2][1]. -/
def pfSlots (l : LwsSpawnPiped) : List Int :=
  [l.pf00, l.pf01, l.pf10, l.pf11, l.pf20, l.pf21]

/-- The fds bail1 closes: every pipe_fds slot still holding a nonnegative
fd, in index order. -/
def bail1closes (l : LwsSpawnPiped) : List Int :=
  closeIfValid l.pf00 ++ closeIfValid l.pf01 ++ closeIfValid l.pf10 ++
  closeIfValid l.pf11 ++ closeIfValid l.pf20 ++ closeIfValid l.pf21

/-- How many stdwsi slots of the handle hold a descriptor (the bail2 loop
frees exactly these). -/
def wsiCount (l : LwsSpawnPiped) : Nat :=
  (if l.stdwsi0.isSome then 1 else 0) + (if l.stdwsi1.isSome then 1 else 0) +
  (if l.stdwsi2.isSome then 1 else 0)

/-- A failure return reaching only the bail1 label: close every still-valid
pipe fd and return -1.  No child exists and the parent made no
process-state calls. -/
def mkBail1 (s : SpawnSt) : SpawnResult :=
  { parentRv := -1, ctx := s.ctx, lsp := s.lsp, opened := s.opened,
    closes := bail1closes s.lsp, parentCalls := [], factoryErrs := s.factoryErrs,
    child := none, childCalls := [], childCloses := [] }

/-- A failure return through the bail2 label: free every created stdwsi
(undoing its count_wsi_allocated increment), then fall through to bail1. -/
def mkBail2 (s : SpawnSt) : SpawnResult :=
  mkBail1 { s with ctx :=
    { s.ctx with count_wsi_allocated := s.ctx.count_wsi_allocated - wsiCount s.lsp } }

/-- A failure return through the bail3 label with loop counter n: remove
the first n stdwsi from the per-thread fds table (while (--n >= 0)), then
fall through to bail2 and bail1. -/
def mkBail3 (n : Nat) (s : SpawnSt) : SpawnResult :=
  mkBail2 { s with ctx := { s.ctx with fds_count := s.ctx.fds_count - n } }

/-- The pipe-creation loop of lws_spawn_piped: three pipe(2) calls filling
pipe_fds[0..2]; the first failure jumps to bail1. -/
def phasePipes (os : SpawnOS) (s : SpawnSt) : Except SpawnResult SpawnSt :=
  match os.pipe0 with
  | none => .error (mkBail1 s)
  | some f0 =>
    let s1 : SpawnSt := { s with
      lsp := { s.lsp with pf00 := f0.1, pf01 := f0.2 },
      opened := s.opened ++ [f0.1, f0.2] }
    match os.pipe1 with
    | none => .error (mkBail1 s1)
    | some f1 =>
      let s2 : SpawnSt := { s1 with
        lsp := { s1.lsp with pf10 := f1.1, pf11 := f1.2 },
        opened := s1.opened ++ [f1.1, f1.2] }
      match os.pipe2 with
      | none => .error (mkBail1 s2)
      | some f2 =>
        .ok { s2 with
          lsp := { s2.lsp with pf20 := f2.1, pf21 := f2.2 },
          opened := s2.opened ++ [f2.1, f2.2] }

/-- One iteration of the stdwsi-creation loop: lws_create_basic_wsi, then
set lsp_channel, bind the vhost, set the protocol, point sockfd at the
parent-retained pipe end, and set O_NONBLOCK on that end.  A factory
failure comes back as inl; an fcntl failure as inr, still carrying the
created wsi and the bumped context, since the code leaves lsp->stdwsi[n]
assigned when it jumps to bail2. -/
def mkStdWsi (ctx : LwsContext) (mallocOk fcntlOk : Bool) (chan : Nat)
    (pcol : Nat) (parentFd : Int) :
    Except (FactoryErr ⊕ (Wsi × LwsContext)) (Wsi × LwsContext) :=
  match lws_create_basic_wsi ctx mallocOk with
  | .error e => .error (.inl e)
  | .ok (w, ctx1) =>
    let w1 : Wsi := { w with
      lsp_channel := chan, vhostBound := true,
      protocol := some pcol, sockfd := parentFd }
    if fcntlOk then .ok (w1, ctx1) else .error (.inr (w1, ctx1))

/-- The stdwsi-creation loop of lws_spawn_piped: for channels 0, 1, 2
create a basic wsi for the parent-retained pipe end (the write end for
stdin, the read ends for stdout and stderr) and make that end nonblocking;
the first failure jumps to bail2.  A factory failure is recorded; the
failed fcntl iteration keeps its created wsi in the handle, exactly as the
code leaves lsp->stdwsi[n] set when goto bail2 runs. -/
def phaseWsi (os : SpawnOS) (pcol : Nat) (s : SpawnSt) :
    Except SpawnResult SpawnSt :=
  match mkStdWsi s.ctx os.malloc0 os.fcntl0 0 pcol s.lsp.pf01 with
  | .error (.inl e) =>
    .error (mkBail2 { s with factoryErrs := s.factoryErrs ++ [e] })
  | .error (.inr (w, ctx1)) =>
    .error (mkBail2 { s with
      ctx := ctx1, lsp := { s.lsp with stdwsi0 := some w } })
  | .ok (w0, ctx0) =>
    let s1 : SpawnSt := { s with
      ctx := ctx0, lsp := { s.lsp with stdwsi0 := some w0 } }
    match mkStdWsi s1.ctx os.malloc1 os.fcntl1 1 pcol s1.lsp.pf10 with
    | .error (.inl e) =>
      .error (mkBail2 { s1 with factoryErrs := s1.factoryErrs ++ [e] })
    | .error (.inr (w, ctx2)) =>
      .error (mkBail2 { s1 with
        ctx := ctx2, lsp := { s1.lsp with stdwsi1 := some w } })
    | .ok (w1, ctx1) =>
      let s2 : SpawnSt := { s1 with
        ctx := ctx1, lsp := { s1.lsp with stdwsi1 := some w1 } }
      match mkStdWsi s2.ctx os.malloc2 os.fcntl2 2 pcol s2.lsp.pf20 with
      | .error (.inl e) =>
        .error (mkBail2 { s2 with factoryErrs := s2.factoryErrs ++ [e] })
      | .error (.inr (w, ctx3)) =>
        .error (mkBail2 { s2 with
          ctx := ctx3, lsp := { s2.lsp with stdwsi2 := some w } })
      | .ok (w2, ctx2) =>
        .ok { s2 with
          ctx := ctx2, lsp := { s2.lsp with stdwsi2 := some w2 } }

/-- The reactor-registration loop of lws_spawn_piped: for channels 0, 1, 2
run the optional sock_accept backend hook, insert the wsi into the
per-thread fds table, and link it under opt_parent when one is supplied;
the first failure jumps to bail3 with the loop counter n, which unwinds
exactly the already-inserted channels.  The none arms for the stdwsi slots
cannot arise after phaseWsi and mirror dereferencing the slot the loop
just filled. -/
def phaseReg (os : SpawnOS) (opt_parent : Bool) (s : SpawnSt) :
    Except SpawnResult SpawnSt :=
  match s.lsp.stdwsi0 with
  | none => .error (mkBail3 0 s)
  | some w0 =>
    if s.ctx.has_sock_accept && !os.sockAccept0 then .error (mkBail3 0 s)
    else if !os.insert0 then .error (mkBail3 0 s)
    else
      let p0 := insertWsiSocketIntoFds s.ctx w0
      let w0f := if opt_parent then { p0.2 with parentLinked := true } else p0.2
      let s1 : SpawnSt := { s with
        ctx := p0.1, lsp := { s.lsp with stdwsi0 := some w0f } }
      match s1.lsp.stdwsi1 with
      | none => .error (mkBail3 1 s1)
      | some w1 =>
        if s1.ctx.has_sock_accept && !os.sockAccept1 then .error (mkBail3 1 s1)
        else if !os.insert1 then .error (mkBail3 1 s1)
        else
          let p1 := insertWsiSocketIntoFds s1.ctx w1
          let w1f := if opt_parent then { p1.2 with parentLinked := true } else p1.2
          let s2 : SpawnSt := { s1 with
            ctx := p1.1, lsp := { s1.lsp with stdwsi1 := some w1f } }
          match s2.lsp.stdwsi2 with
          | none => .error (mkBail3 2 s2)
          | some w2 =>
            if s2.ctx.has_sock_accept && !os.sockAccept2 then
              .error (mkBail3 2 s2)
            else if !os.insert2 then .error (mkBail3 2 s2)
            else
              let p2 := insertWsiSocketIntoFds s2.ctx w2
              let w2f := if opt_parent then { p2.2 with parentLinked := true } else p2.2
              .ok { s2 with
                ctx := p2.1, lsp := { s2.lsp with stdwsi2 := some w2f } }

/-- The three explicit lws_change_pollfd calls after registration (stdin
armed for POLLOUT, stdout and stderr for POLLIN); any failure jumps to
bail3 with n = 3. -/
def phasePoll (os : SpawnOS) (s : SpawnSt) : Except SpawnResult SpawnSt :=
  if ¬ os.pollIn then .error (mkBail3 3 s)
  else if ¬ os.pollOut then .error (mkBail3 3 s)
  else if ¬ os.pollErr then .error (mkBail3 3 s)
  else .ok s

/-- The process-state calls every process coming out of a successful fork
performs before the child_pid branch is examined:
prctl(PR_SET_PDEATHSIG, SIGTERM) and, when do_setpgrp is set, setpgrp().
Both the parent and the child run these. -/
def sharedPostForkCalls (dsp : Bool) : List PCall :=
  [PCall.prctlPdeathsig] ++ (if dsp then [PCall.setpgrpCall] else [])

/-- What the simulated child process does after a successful fork: chdir,
three dup2 redirections onto fds 0, 1, 2 (the read end for stdin, the
write ends for stdout and stderr) each followed by closing both recorded
pipe fds of that channel; a dup2 failure jumps to the shared bail3 label
inside the child, whose bail1 tail recloses every pipe fd still recorded
in the struct, and returns -1 to the copy of the caller running in the
child; otherwise the environment is applied and the program image replaced,
and a replacement that returns control falls through to exit(1). -/
def childRun (os : SpawnOS) (inp : SpawnIn) (l : LwsSpawnPiped) :
    ChildOutcome × List PCall × List Int :=
  if ¬ os.dup2a then
    (.returnedToCaller (-1), [.dup2Call l.pf00 0], bail1closes l)
  else if ¬ os.dup2b then
    (.returnedToCaller (-1), [.dup2Call l.pf00 0, .dup2Call l.pf11 1],
     [l.pf00, l.pf01] ++ bail1closes l)
  else if ¬ os.dup2c then
    (.returnedToCaller (-1),
     [.dup2Call l.pf00 0, .dup2Call l.pf11 1, .dup2Call l.pf21 2],
     [l.pf00, l.pf01, l.pf10, l.pf11] ++ bail1closes l)
  else
    let calls : List PCall :=
      [.dup2Call l.pf00 0, .dup2Call l.pf11 1, .dup2Call l.pf21 2]
    let closes : List Int := [l.pf00, l.pf01, l.pf10, l.pf11, l.pf20, l.pf21]
    match childEnvAtExec os.useVfork os.baseEnv inp.env_array with
    | none => (.crashed, calls, closes)
    | some env =>
      (if os.execReturns then .exited 1 else .execed env, calls, closes)

/-- lws_spawn_piped.  The initializer of pcol dereferences
vh->context->vhost_list before any check, so a NULL vhost list is
undefined behavior, modelled as none.  An unresolvable protocol returns -1
before the pipe_fds slots are even initialized.  Then: initialize the six
slots to -1, create the three pipes, create and prepare the three stdwsi,
register them with the reactor, arm the asymmetric poll interest, fork.
A fork failure unwinds through bail3 with child_pid = -1.  On success
prctl(PR_SET_PDEATHSIG, SIGTERM) and, when do_setpgrp is set, setpgrp()
run in BOTH processes (they sit before the child_pid branch); the parent
then applies FD_CLOEXEC to each retained pipe end, closes each opposite
end, registers the handle under the owner, schedules the timeout when
nonzero, and returns 0; the child chdirs, redirects, applies the
environment and replaces its image. -/
def lws_spawn_piped (os : SpawnOS) (ctx : LwsContext) (inp : SpawnIn)
    (lsp : LwsSpawnPiped) : Option SpawnResult :=
  match ctx.vhost_protocols with
  | none => none
  | some defProtocols =>
    let pcol : Option Nat := if inp.pcon then os.protoLookup else defProtocols
    match pcol with
    | none => some { parentRv := -1, ctx := ctx, lsp := lsp, opened := [],
                     closes := [], parentCalls := [], factoryErrs := [],
                     child := none, childCalls := [], childCloses := [] }
    | some pc =>
      let s0 : SpawnSt :=
        { ctx := ctx,
          lsp := { lsp with
            pf00 := -1, pf01 := -1, pf10 := -1, pf11 := -1,
            pf20 := -1, pf21 := -1 },
          opened := [], factoryErrs := [] }
      match phasePipes os s0 with
      | .error r => some r
      | .ok s1 =>
        match phaseWsi os pc s1 with
        | .error r => some r
        | .ok s2 =>
          match phaseReg os inp.opt_parent s2 with
          | .error r => some r
          | .ok s3 =>
            match phasePoll os s3 with
            | .error r => some r
            | .ok s4 =>
              if ¬ os.forkOk then
                some (mkBail3 3 { s4 with
                  lsp := { s4.lsp with child_pid := -1 } })
              else
                let pid : Int := (os.forkPid : Int) + 1
                let l := s4.lsp
                let shared : List PCall := sharedPostForkCalls l.do_setpgrp
                let c := childRun os inp l
                some { parentRv := 0,
                       ctx := s4.ctx,
                       lsp := { l with
                         child_pid := pid,
                         inOwner := if inp.owner then true else l.inOwner,
                         sulScheduled := if inp.timeout ≠ 0 then true else l.sulScheduled },
                       opened := s4.opened,
                       closes := [l.pf00, l.pf11, l.pf21],
                       parentCalls := shared ++
                         [.cloexec l.pf01, .cloexec l.pf10, .cloexec l.pf20],
                       factoryErrs := s4.factoryErrs,
                       child := some c.1,
                       childCalls := shared ++ [PCall.chdirTmp] ++ c.2.1,
                       childCloses := c.2.2 }

/-- Modelled from the claim wording about the wait-drain loop, for
comparison with drainIters: a loop that performs an iteration of the two
nonblocking waits and stops as soon as one of them reports a reaped child,
or both report no child, and otherwise iterates. -/
def drainItersClaimed : List (Int × Int) → Nat
  | [] => 1
  | r :: rest =>
    if 0 < effWait r then 1
    else if r.1 ≤ 0 ∧ r.2 ≤ 0 then 1
    else 1 + drainItersClaimed rest

/-- Every fd the pipe(2) oracle would hand out, in hand-out order. -/
def pipeOracleFds (os : SpawnOS) : List Int :=
  (match os.pipe0 with | none => [] | some f => [f.1, f.2]) ++
  (match os.pipe1 with | none => [] | some f => [f.1, f.2]) ++
  (match os.pipe2 with | none => [] | some f => [f.1, f.2])

/-- The pipe(2) oracle behaves like a real kernel: the descriptors it hands
out are nonnegative and pairwise distinct. -/
def freshPipeFds (os : SpawnOS) : Prop :=
  (pipeOracleFds os).Nodup ∧ ∀ fd ∈ pipeOracleFds os, 0 ≤ fd

/-- A zero-initialized handle as callers pass it in: no stale stdwsi
pointers. -/
def zeroStdwsi (l : LwsSpawnPiped) : Prop :=
  l.stdwsi0 = none ∧ l.stdwsi1 = none ∧ l.stdwsi2 = none

/-- A fixture oracle on which every step of lws_spawn_piped succeeds:
pipe(2) hands out fds 3..8, fork yields child pid 42, and the program
image is replaced successfully on the fork()/execvp platform variant. -/
def osAllOk : SpawnOS :=
  { protoLookup := none, pipe0 := some (3, 4), pipe1 := some (5, 6),
    pipe2 := some (7, 8),
    malloc0 := true, malloc1 := true, malloc2 := true,
    fcntl0 := true, fcntl1 := true, fcntl2 := true,
    sockAccept0 := true, sockAccept1 := true, sockAccept2 := true,
    insert0 := true, insert1 := true, insert2 := true,
    pollIn := true, pollOut := true, pollErr := true,
    forkOk := true, forkPid := 41, dup2a := true, dup2b := true,
    dup2c := true, useVfork := false, baseEnv := [], execReturns := false }

/-- A fixture context with one vhost whose first protocol is tagged 7 and
plenty of fds headroom. -/
def ctxOk : LwsContext :=
  { vhost_protocols := some (some 7), fds_count := 10,
    fd_limit_per_thread := 100, count_wsi_allocated := 4,
    has_sock_accept := true }

/-- Fixture arguments: an owner list, no opt_parent, the default protocol,
a nonzero timeout and a four-entry environment. -/
def inpStd : SpawnIn :=
  { owner := true, opt_parent := false, pcon := false, timeout := 5,
    env_array := [['A', '=', '1'], ['B', '=', '2'], ['C', '=', '3'],
                  ['D', '=', '4']] }

/-- A zero-initialized fixture handle with group-kill configured. -/
def lspZero : LwsSpawnPiped :=
  { pf00 := 0, pf01 := 0, pf10 := 0, pf11 := 0, pf20 := 0, pf21 := 0,
    stdwsi0 := none, stdwsi1 := none, stdwsi2 := none,
    child_pid := 0, do_setpgrp := true, inOwner := false,
    sulScheduled := false }

/-- A fixture kill oracle for a live, unresponsive child: the initial wait
reaps nothing, every kill(2) fails, and the drain loop sees a live child
(group wait says no such group, direct wait says still running). -/
def killOsStubborn : KillOS :=
  { wait0 := 0, killGroupTerm := false, killDirectTerm := false,
    killDirectPipe := false, killDirectKill := false, drain := [(-1, 0)] }

/-- A fixture oracle identical to osAllOk except that the third fds-table
insertion fails. -/
def osInsFail : SpawnOS := { osAllOk with insert2 := false }

/-- A fixture context sitting exactly at the per-thread descriptor
capacity (fds_count = fd_limit_per_thread - 1). -/
def ctxFull : LwsContext := { ctxOk with fds_count := 99 }

/-- A default result used only to extract values from an Option. -/
def defaultResult : SpawnResult :=
  mkBail1 { ctx := ctxOk, lsp := lspZero, opened := [], factoryErrs := [] }

/-- The result of the fixture spawn whose third insertion fails. -/
def rInsFail : SpawnResult :=
  (lws_spawn_piped osInsFail ctxOk inpStd lspZero).getD defaultResult

/-- The result of the fixture spawn attempted at capacity. -/
def rAtCapacity : SpawnResult :=
  (lws_spawn_piped osAllOk ctxFull inpStd lspZero).getD defaultResult

/-- The result of the all-success fixture spawn. -/
def rAllOk : SpawnResult :=
  (lws_spawn_piped osAllOk ctxOk inpStd lspZero).getD defaultResult

/-- A fixture oracle on which everything succeeds except that program
replacement returns control (exec of a nonexistent binary). -/
def osExecFail : SpawnOS := { osAllOk with execReturns := true }

/-- The result of the fixture spawn whose exec returns control. -/
def rExecFail : SpawnResult :=
  (lws_spawn_piped osExecFail ctxOk inpStd lspZero).getD defaultResult

/-- C8. Destroying a handle twice equals destroying it once: the first
call closes each valid parent-retained fd (pf01, pf10, pf20) and writes
LWS_SOCK_INVALID into its slot, and the second call closes nothing, logs
no zero-fd anomaly and leaves the handle exactly as the first call left
it. -/
theorem lws_spawn_piped_destroy_idempotent (lsp : LwsSpawnPiped) :
    (lws_spawn_piped_destroy (lws_spawn_piped_destroy lsp).lsp).lsp =
      (lws_spawn_piped_destroy lsp).lsp ∧
    (lws_spawn_piped_destroy (lws_spawn_piped_destroy lsp).lsp).closes = [] ∧
    (lws_spawn_piped_destroy (lws_spawn_piped_destroy lsp).lsp).zeroAnomalies = 0 ∧
    (0 ≤ lsp.pf01 → lsp.pf01 ∈ (lws_spawn_piped_destroy lsp).closes ∧
      (lws_spawn_piped_destroy lsp).lsp.pf01 = LWS_SOCK_INVALID) ∧
    (0 ≤ lsp.pf10 → lsp.pf10 ∈ (lws_spawn_piped_destroy lsp).closes ∧
      (lws_spawn_piped_destroy lsp).lsp.pf10 = LWS_SOCK_INVALID) ∧
    (0 ≤ lsp.pf20 → lsp.pf20 ∈ (lws_spawn_piped_destroy lsp).closes ∧
      (lws_spawn_piped_destroy lsp).lsp.pf20 = LWS_SOCK_INVALID) := by
  simp only [lws_spawn_piped_destroy, destroyChannelFd, sulCancel, dll2Remove,
    LWS_SOCK_INVALID]
  split_ifs <;> simp_all

/-- Witness for C8 at a handle whose three retained fds are 4, 5, 6. -/
theorem lws_spawn_piped_destroy_idempotent_witness :
    (4:Int) ∈ (lws_spawn_piped_destroy
      { lspZero with pf01 := 4, pf10 := 5, pf20 := 6 }).closes ∧
    (lws_spawn_piped_destroy
      { lspZero with pf01 := 4, pf10 := 5, pf20 := 6 }).lsp.pf01 =
      LWS_SOCK_INVALID :=
  (lws_spawn_piped_destroy_idempotent
    { lspZero with pf01 := 4, pf10 := 5, pf20 := 6 }).2.2.2.1 (by decide)

/-- C5. On a handle with a live tracked child (child_pid positive) whose
initial nonblocking wait reaps nothing, the signals are sent in exactly
the escalation order SIGTERM to -pid, then (only on failure of the
previous send) SIGTERM to pid, then SIGPIPE to pid, then SIGKILL to pid,
whose own failure is logged but not surfaced; in every such case the call
ends with child_pid = -1 and returns 0, never a hard error. -/
theorem kill_child_escalation (os : KillOS) (lsp : LwsSpawnPiped)
    (hp : 0 < lsp.child_pid) (hw : os.wait0 ≤ 0) :
    (lws_spawn_piped_kill_child_process os lsp).lsp.child_pid = -1 ∧
    (lws_spawn_piped_kill_child_process os lsp).rv = 0 ∧
    (lws_spawn_piped_kill_child_process os lsp).kills =
      (if os.killGroupTerm then [(-lsp.child_pid, Sig.sigterm)]
       else if os.killDirectTerm then
         [(-lsp.child_pid, Sig.sigterm), (lsp.child_pid, Sig.sigterm)]
       else if os.killDirectPipe then
         [(-lsp.child_pid, Sig.sigterm), (lsp.child_pid, Sig.sigterm),
          (lsp.child_pid, Sig.sigpipe)]
       else
         [(-lsp.child_pid, Sig.sigterm), (lsp.child_pid, Sig.sigterm),
          (lsp.child_pid, Sig.sigpipe), (lsp.child_pid, Sig.sigkill)]) := by
  unfold lws_spawn_piped_kill_child_process
  rw [if_neg (by omega), if_neg (by omega)]
  exact ⟨rfl, rfl, rfl⟩

/-- Witness for C5: a live child with pid 9 on which every kill fails
produces the full four-step escalation and still ends reaped-marked. -/
theorem kill_child_escalation_witness :
    (lws_spawn_piped_kill_child_process killOsStubborn
        { lspZero with child_pid := 9 }).lsp.child_pid = -1 ∧
    (lws_spawn_piped_kill_child_process killOsStubborn
        { lspZero with child_pid := 9 }).kills =
      [(-9, Sig.sigterm), (9, Sig.sigterm), (9, Sig.sigpipe),
       (9, Sig.sigkill)] := by
  have h := kill_child_escalation killOsStubborn { lspZero with child_pid := 9 }
    (by decide) (by decide)
  exact ⟨h.1, by simpa [killOsStubborn, lspZero] using h.2.2⟩

/-- C7. With child_pid not positive the operation returns 1 (already
reaped) at once, sending no signal and leaving the handle untouched; and
with a live child_pid whose initial nonblocking wait reaps it, the
operation marks child_pid = -1 and stops, again sending no signal and
performing no drain iteration. -/
theorem kill_child_no_signal_when_reaped (os : KillOS) (lsp : LwsSpawnPiped) :
    (lsp.child_pid ≤ 0 →
      lws_spawn_piped_kill_child_process os lsp =
        { rv := 1, lsp := lsp, kills := [], waitCalls := [],
          drainIterations := 0 }) ∧
    (0 < lsp.child_pid → 0 < os.wait0 →
      lws_spawn_piped_kill_child_process os lsp =
        { rv := 0, lsp := { lsp with child_pid := -1 }, kills := [],
          waitCalls := [lsp.child_pid], drainIterations := 0 }) := by
  unfold lws_spawn_piped_kill_child_process
  constructor
  · intro h; rw [if_pos h]
  · intro h1 h2; rw [if_neg (by omega), if_pos h2]

/-- Witness for C7 at a handle with child_pid 0 (no live child tracked). -/
theorem kill_child_no_signal_when_reaped_witness :
    lws_spawn_piped_kill_child_process killOsStubborn lspZero =
      { rv := 1, lsp := lspZero, kills := [], waitCalls := [],
        drainIterations := 0 } :=
  (kill_child_no_signal_when_reaped killOsStubborn lspZero).1 (by decide)

/-- Counterexample to C6 as stated.  The claim says the wait-drain loop
stops as soon as one wait reports a reaped child; in the code the loop
condition while (n > 0) makes a successful reap CONTINUE the loop, which
only stops when an iteration reaps nothing.  With a first iteration whose
group wait reaps pid 5, the code performs a second iteration (two in
total), while the loop the claim describes (drainItersClaimed) stops after
one. -/
theorem drain_continues_after_reap :
    drainIters [((5 : Int), (0 : Int))] = 2 ∧
    drainItersClaimed [((5 : Int), (0 : Int))] = 1 := by
  decide

/-- C6 as amended.  The wait-drain loop targets the negated and the bare
pid without blocking; it CONTINUES while an iteration reaps a child and
stops at the first iteration in which both waits report no reaped child,
so it runs at most one iteration more than there are reapable state
changes, every non-final iteration had a wait reporting a reaped child,
and on a live unresponsive child (every wait non-positive) it performs
exactly one iteration — it never iterates indefinitely on a live
process. -/
theorem drain_loop_spec (rs : List (Int × Int)) :
    drainIters rs ≤ rs.length + 1 ∧
    (∀ k : Nat, k + 1 < drainIters rs → 0 < effWait (rs.getD k (-1, -1))) ∧
    ((∀ r ∈ rs, effWait r ≤ 0) → drainIters rs = 1) ∧
    (∀ os : KillOS, ∀ lsp : LwsSpawnPiped, 0 < lsp.child_pid → os.wait0 ≤ 0 →
      (lws_spawn_piped_kill_child_process os lsp).drainIterations =
        drainIters os.drain ∧
      (lws_spawn_piped_kill_child_process os lsp).waitCalls =
        lsp.child_pid :: drainCalls lsp.child_pid os.drain) := by
  refine ⟨?_, ?_, ?_, ?_⟩
  · induction rs with
    | nil => simp [drainIters]
    | cons r rest ih =>
      simp only [drainIters, List.length_cons]
      split <;> omega
  · induction rs with
    | nil => intro k hk; simp [drainIters] at hk
    | cons r rest ih =>
      intro k hk
      simp only [drainIters] at hk
      rcases Nat.eq_zero_or_pos k with hk0 | hkp
      · subst hk0
        by_cases h : 0 < effWait r
        · simpa using h
        · rw [if_neg h] at hk; omega
      · obtain ⟨j, rfl⟩ := Nat.exists_eq_add_of_le hkp
        by_cases h : 0 < effWait r
        · rw [if_pos h] at hk
          have := ih j (by omega)
          simpa [Nat.add_comm] using this
        · rw [if_neg h] at hk; omega
  · intro hall
    cases rs with
    | nil => rfl
    | cons r rest =>
      simp only [drainIters]
      rw [if_neg (by have := hall r (by simp); omega)]
  · intro os lsp hp hw
    unfold lws_spawn_piped_kill_child_process
    rw [if_neg (by omega), if_neg (by omega)]
    exact ⟨rfl, rfl⟩

/-- Witness for C6 as amended at a drain trace that reaps once then sees
nothing, and at the stubborn-child fixture. -/
theorem drain_loop_spec_witness :
    0 < effWait (([((5 : Int), (0 : Int))]).getD 0 (-1, -1)) ∧
    (lws_spawn_piped_kill_child_process killOsStubborn
        { lspZero with child_pid := 9 }).drainIterations =
      drainIters killOsStubborn.drain :=
  ⟨(drain_loop_spec [((5 : Int), (0 : Int))]).2.1 0 (by decide),
   ((drain_loop_spec []).2.2.2 killOsStubborn { lspZero with child_pid := 9 }
      (by decide) (by decide)).1⟩

/-- C4 is a code bug: the setenv loop in the child branch iterates
for (m = 0; m < n; m++) with n the leftover counter (= 3) of the
registration loop, not the length of env_array.  On the fork()/execvp
platform variant the child therefore gets exactly the first three entries
applied — a four-entry list loses its fourth entry, diverging from the
vfork()/execvpe variant which passes the whole list — and a one-entry
list makes the loop read past the terminator and crash the child.  The
last conjunct exhibits the divergence through a full lws_spawn_piped run:
with osAllOk (a fork()/execvp platform, empty inherited environment) and
the four-entry list of inpStd, the replaced image sees only three
entries. -/
theorem setenv_path_truncates_env :
    childEnvAtExec false [] inpStd.env_array =
      some [['A', '=', '1'], ['B', '=', '2'], ['C', '=', '3']] ∧
    childEnvAtExec true [] inpStd.env_array = some inpStd.env_array ∧
    childEnvAtExec false [] inpStd.env_array ≠
      childEnvAtExec true [] inpStd.env_array ∧
    childEnvAtExec false [] [['A', '=', '1']] = none ∧
    ((lws_spawn_piped osAllOk ctxOk inpStd lspZero).map
        (fun r => r.child)).getD none =
      some (ChildOutcome.execed
        [['A', '=', '1'], ['B', '=', '2'], ['C', '=', '3']]) := by
  refine ⟨by decide, by decide, by decide, by decide, by decide⟩

/-- Helper: closeIfValid as a one-element filter. -/
theorem closeIfValid_eq (fd : Int) :
    closeIfValid fd = [fd].filter (fun x => decide (0 ≤ x)) := by
  by_cases h : 0 ≤ fd <;> simp [closeIfValid, h]

/-- Helper: the bail1 close list is the nonnegative pipe_fds slots in slot
order. -/
theorem bail1closes_eq_filter (l : LwsSpawnPiped) :
    bail1closes l = (pfSlots l).filter (fun fd => decide (0 ≤ fd)) := by
  show closeIfValid l.pf00 ++ closeIfValid l.pf01 ++ closeIfValid l.pf10 ++
    closeIfValid l.pf11 ++ closeIfValid l.pf20 ++ closeIfValid l.pf21 =
    List.filter (fun fd => decide (0 ≤ fd))
      [l.pf00, l.pf01, l.pf10, l.pf11, l.pf20, l.pf21]
  rw [show [l.pf00, l.pf01, l.pf10, l.pf11, l.pf20, l.pf21] =
    [l.pf00] ++ [l.pf01] ++ [l.pf10] ++ [l.pf11] ++ [l.pf20] ++ [l.pf21] by simp]
  simp only [List.filter_append, closeIfValid_eq]

/-- Helper: a successful lws_create_basic_wsi only bumps the allocation
counter. -/
theorem basic_wsi_ok_ctx (ctx : LwsContext) (m : Bool) (w : Wsi)
    (ctx1 : LwsContext) (h : lws_create_basic_wsi ctx m = .ok (w, ctx1)) :
    ctx1 = { ctx with count_wsi_allocated := ctx.count_wsi_allocated + 1 } := by
  unfold lws_create_basic_wsi at h
  split_ifs at h
  exact (congrArg Prod.snd (Except.ok.inj h)).symm

/-- Helper: with a vhost present, the factory never fails with noVhost. -/
theorem basic_wsi_err_not_noVhost (ctx : LwsContext) (m : Bool)
    (e : FactoryErr) (hv : ctx.vhost_protocols ≠ none)
    (h : lws_create_basic_wsi ctx m = .error e) : e ≠ FactoryErr.noVhost := by
  unfold lws_create_basic_wsi at h
  have hnn : ¬ ctx.vhost_protocols.isNone := by
    simpa [Option.isNone_iff_eq_none] using hv
  rw [if_neg hnn] at h
  split_ifs at h
  · cases Except.error.inj h; decide
  · cases Except.error.inj h; decide

/-- Helper: a pipe-creation failure unwinds to bail1 leaving counters and
wsis untouched, closing exactly the fds opened so far (which form a
sublist of what the pipe oracle would hand out). -/
theorem phasePipes_error (os : SpawnOS) (s : SpawnSt) (r : SpawnResult)
    (e0 : s.lsp.pf00 = -1) (e1 : s.lsp.pf01 = -1) (e2 : s.lsp.pf10 = -1)
    (e3 : s.lsp.pf11 = -1) (e4 : s.lsp.pf20 = -1) (e5 : s.lsp.pf21 = -1)
    (hop : s.opened = [])
    (hfresh : ∀ fd ∈ pipeOracleFds os, 0 ≤ fd)
    (h : phasePipes os s = .error r) :
    r.parentRv = -1 ∧ r.child = none ∧ r.parentCalls = [] ∧
    r.childCalls = [] ∧ r.childCloses = [] ∧
    r.ctx = s.ctx ∧ r.factoryErrs = s.factoryErrs ∧
    r.lsp.stdwsi0 = s.lsp.stdwsi0 ∧ r.lsp.stdwsi1 = s.lsp.stdwsi1 ∧
    r.lsp.stdwsi2 = s.lsp.stdwsi2 ∧
    r.closes = r.opened ∧ r.opened.Sublist (pipeOracleFds os) := by
  unfold phasePipes at h
  split at h
  next hp0 =>
    cases Except.error.inj h
    refine ⟨rfl, rfl, rfl, rfl, rfl, rfl, rfl, rfl, rfl, rfl, ?_, ?_⟩
    · show bail1closes s.lsp = s.opened
      rw [bail1closes_eq_filter, hop]
      simp [pfSlots, e0, e1, e2, e3, e4, e5]
    · show List.Sublist s.opened _
      rw [hop]; exact List.nil_sublist _
  next f0 hp0 =>
    split at h
    next hp1 =>
      cases Except.error.inj h
      have hf1 : 0 ≤ f0.1 := hfresh f0.1 (by simp [pipeOracleFds, hp0])
      have hf2 : 0 ≤ f0.2 := hfresh f0.2 (by simp [pipeOracleFds, hp0])
      refine ⟨rfl, rfl, rfl, rfl, rfl, rfl, rfl, rfl, rfl, rfl, ?_, ?_⟩
      · show bail1closes _ = _
        rw [bail1closes_eq_filter]
        simp [pfSlots, mkBail1, e2, e3, e4, e5, hop, hf1, hf2]
      · show List.Sublist (s.opened ++ [f0.1, f0.2]) _
        rw [hop]
        simp only [pipeOracleFds, hp0, List.nil_append]
        exact List.sublist_append_left _ _
    next f1 hp1 =>
      split at h
      next hp2 =>
        cases Except.error.inj h
        have hf1 : 0 ≤ f0.1 := hfresh f0.1 (by simp [pipeOracleFds, hp0])
        have hf2 : 0 ≤ f0.2 := hfresh f0.2 (by simp [pipeOracleFds, hp0])
        have hg1 : 0 ≤ f1.1 := hfresh f1.1 (by simp [pipeOracleFds, hp0, hp1])
        have hg2 : 0 ≤ f1.2 := hfresh f1.2 (by simp [pipeOracleFds, hp0, hp1])
        refine ⟨rfl, rfl, rfl, rfl, rfl, rfl, rfl, rfl, rfl, rfl, ?_, ?_⟩
        · show bail1closes _ = _
          rw [bail1closes_eq_filter]
          simp [pfSlots, mkBail1, e4, e5, hop, hf1, hf2, hg1, hg2]
        · show List.Sublist (s.opened ++ [f0.1, f0.2] ++ [f1.1, f1.2]) _
          rw [hop]
          simp only [pipeOracleFds, hp0, hp1, List.nil_append, List.append_assoc]
          exact List.sublist_append_left _ _
      next f2 hp2 =>
        exact absurd h (by simp)

/-- Helper: the successful pipe phase only fills the six slots with the
oracle fds and appends them to the opened list. -/
theorem phasePipes_ok (os : SpawnOS) (s s1 : SpawnSt)
    (h : phasePipes os s = .ok s1) :
    s1.ctx = s.ctx ∧ s1.factoryErrs = s.factoryErrs ∧
    s1.opened = s.opened ++ pipeOracleFds os ∧
    pfSlots s1.lsp = pipeOracleFds os ∧
    s1.lsp.stdwsi0 = s.lsp.stdwsi0 ∧ s1.lsp.stdwsi1 = s.lsp.stdwsi1 ∧
    s1.lsp.stdwsi2 = s.lsp.stdwsi2 ∧
    s1.lsp.do_setpgrp = s.lsp.do_setpgrp ∧
    s1.lsp.child_pid = s.lsp.child_pid ∧
    s1.lsp.inOwner = s.lsp.inOwner ∧
    s1.lsp.sulScheduled = s.lsp.sulScheduled := by
  unfold phasePipes at h
  split at h
  next => exact absurd h (by simp)
  next f0 hp0 =>
    split at h
    next => exact absurd h (by simp)
    next f1 hp1 =>
      split at h
      next => exact absurd h (by simp)
      next f2 hp2 =>
        cases Except.ok.inj h
        refine ⟨rfl, rfl, ?_, ?_, rfl, rfl, rfl, rfl, rfl, rfl, rfl⟩
        · simp [pipeOracleFds, hp0, hp1, hp2]
        · simp [pipeOracleFds, pfSlots, hp0, hp1, hp2]

/-- Helper: an inl failure of mkStdWsi is a factory failure. -/
theorem mkStdWsi_inl (ctx : LwsContext) (m f : Bool) (c : Nat) (pc : Nat)
    (fd : Int) (e : FactoryErr)
    (h : mkStdWsi ctx m f c pc fd = .error (.inl e)) :
    lws_create_basic_wsi ctx m = .error e := by
  unfold mkStdWsi at h
  split at h
  · next he =>
      cases Sum.inl.inj (Except.error.inj h)
      exact he
  · next => split_ifs at h <;> simp_all

/-- Helper: an fcntl failure of mkStdWsi still carries the bumped
context. -/
theorem mkStdWsi_inr (ctx : LwsContext) (m f : Bool) (c : Nat) (pc : Nat)
    (fd : Int) (w : Wsi) (ctx1 : LwsContext)
    (h : mkStdWsi ctx m f c pc fd = .error (.inr (w, ctx1))) :
    ctx1 = { ctx with count_wsi_allocated := ctx.count_wsi_allocated + 1 } := by
  unfold mkStdWsi at h
  split at h
  · simp_all
  · next w0 ctx0 he =>
    split_ifs at h
    have := Sum.inr.inj (Except.error.inj h)
    have hc : ctx0 = ctx1 := congrArg Prod.snd this
    subst hc
    exact basic_wsi_ok_ctx ctx m w0 ctx0 he

/-- Helper: a successful mkStdWsi bumps exactly the allocation counter. -/
theorem mkStdWsi_ok (ctx : LwsContext) (m f : Bool) (c : Nat) (pc : Nat)
    (fd : Int) (w : Wsi) (ctx1 : LwsContext)
    (h : mkStdWsi ctx m f c pc fd = .ok (w, ctx1)) :
    ctx1 = { ctx with count_wsi_allocated := ctx.count_wsi_allocated + 1 } := by
  unfold mkStdWsi at h
  split at h
  · simp_all
  · next w0 ctx0 he =>
    split_ifs at h
    have := Except.ok.inj h
    have hc : ctx0 = ctx1 := congrArg Prod.snd this
    subst hc
    exact basic_wsi_ok_ctx ctx m w0 ctx0 he

/-- Helper: a failure in the stdwsi-creation loop unwinds through bail2,
freeing exactly the wsis created so far, touching no pipe slot or opened
fd, and recording no noVhost factory failure when a vhost is present. -/
theorem phaseWsi_error (os : SpawnOS) (pc : Nat) (s : SpawnSt) (r : SpawnResult)
    (hz0 : s.lsp.stdwsi0 = none) (hz1 : s.lsp.stdwsi1 = none)
    (hz2 : s.lsp.stdwsi2 = none)
    (hv : s.ctx.vhost_protocols ≠ none)
    (hnv : FactoryErr.noVhost ∉ s.factoryErrs)
    (h : phaseWsi os pc s = .error r) :
    r.parentRv = -1 ∧ r.child = none ∧ r.parentCalls = [] ∧
    r.childCalls = [] ∧ r.childCloses = [] ∧
    r.ctx.fds_count = s.ctx.fds_count ∧
    r.ctx.count_wsi_allocated = s.ctx.count_wsi_allocated ∧
    r.opened = s.opened ∧
    r.closes = bail1closes s.lsp ∧
    FactoryErr.noVhost ∉ r.factoryErrs := by
  unfold phaseWsi at h
  split at h
  · next e hm0 =>
    cases Except.error.inj h
    have hne : e ≠ FactoryErr.noVhost :=
      basic_wsi_err_not_noVhost _ _ _ hv (mkStdWsi_inl _ _ _ _ _ _ _ hm0)
    refine ⟨rfl, rfl, rfl, rfl, rfl, rfl, ?_, rfl, rfl, ?_⟩
    · simp [mkBail2, mkBail1, wsiCount, hz0, hz1, hz2]
    · simp only [mkBail2, mkBail1, List.mem_append, List.mem_singleton]
      rintro (hmem | hmem)
      · exact hnv hmem
      · exact hne hmem.symm
  · next w ctx1 hm0 =>
    cases Except.error.inj h
    have hc1 := mkStdWsi_inr _ _ _ _ _ _ _ _ hm0
    subst hc1
    refine ⟨rfl, rfl, rfl, rfl, rfl, rfl, ?_, rfl, rfl, ?_⟩
    · simp [mkBail2, mkBail1, wsiCount, hz1, hz2]
    · simpa [mkBail2, mkBail1] using hnv
  · next w0 ctx0 hm0 =>
    have hc0 := mkStdWsi_ok _ _ _ _ _ _ _ _ hm0
    subst hc0
    dsimp only at h
    split at h
    · next e hm1 =>
      cases Except.error.inj h
      have hne : e ≠ FactoryErr.noVhost :=
        basic_wsi_err_not_noVhost _ _ _ (by simpa using hv)
          (mkStdWsi_inl _ _ _ _ _ _ _ hm1)
      refine ⟨rfl, rfl, rfl, rfl, rfl, rfl, ?_, rfl, rfl, ?_⟩
      · simp [mkBail2, mkBail1, wsiCount, hz1, hz2]
      · simp only [mkBail2, mkBail1, List.mem_append, List.mem_singleton]
        rintro (hmem | hmem)
        · exact hnv hmem
        · exact hne hmem.symm
    · next w ctx2 hm1 =>
      cases Except.error.inj h
      have hc2 := mkStdWsi_inr _ _ _ _ _ _ _ _ hm1
      subst hc2
      refine ⟨rfl, rfl, rfl, rfl, rfl, rfl, ?_, rfl, rfl, ?_⟩
      · simp [mkBail2, mkBail1, wsiCount, hz2]
      · simpa [mkBail2, mkBail1] using hnv
    · next w1 ctx1 hm1 =>
      have hc1 := mkStdWsi_ok _ _ _ _ _ _ _ _ hm1
      subst hc1
      dsimp only at h
      split at h
      · next e hm2 =>
        cases Except.error.inj h
        have hne : e ≠ FactoryErr.noVhost :=
          basic_wsi_err_not_noVhost _ _ _ (by simpa using hv)
            (mkStdWsi_inl _ _ _ _ _ _ _ hm2)
        refine ⟨rfl, rfl, rfl, rfl, rfl, rfl, ?_, rfl, rfl, ?_⟩
        · simp [mkBail2, mkBail1, wsiCount, hz2]
        · simp only [mkBail2, mkBail1, List.mem_append, List.mem_singleton]
          rintro (hmem | hmem)
          · exact hnv hmem
          · exact hne hmem.symm
      · next w ctx3 hm2 =>
        cases Except.error.inj h
        have hc3 := mkStdWsi_inr _ _ _ _ _ _ _ _ hm2
        subst hc3
        refine ⟨rfl, rfl, rfl, rfl, rfl, rfl, ?_, rfl, rfl, ?_⟩
        · simp [mkBail2, mkBail1, wsiCount]
        · simpa [mkBail2, mkBail1] using hnv
      · next w2 ctx2 hm2 =>
        exact absurd h (by simp)

/-- Helper: the successful stdwsi phase allocates exactly three wsis and
leaves everything else alone. -/
theorem phaseWsi_ok (os : SpawnOS) (pc : Nat) (s s2 : SpawnSt)
    (h : phaseWsi os pc s = .ok s2) :
    s2.ctx = { s.ctx with
      count_wsi_allocated := s.ctx.count_wsi_allocated + 3 } ∧
    s2.opened = s.opened ∧ s2.factoryErrs = s.factoryErrs ∧
    pfSlots s2.lsp = pfSlots s.lsp ∧
    s2.lsp.stdwsi0.isSome = true ∧ s2.lsp.stdwsi1.isSome = true ∧
    s2.lsp.stdwsi2.isSome = true ∧
    s2.lsp.do_setpgrp = s.lsp.do_setpgrp ∧
    s2.lsp.child_pid = s.lsp.child_pid ∧
    s2.lsp.inOwner = s.lsp.inOwner ∧
    s2.lsp.sulScheduled = s.lsp.sulScheduled := by
  unfold phaseWsi at h
  split at h
  · simp_all
  · simp_all
  · next w0 ctx0 hm0 =>
    have hc0 := mkStdWsi_ok _ _ _ _ _ _ _ _ hm0
    subst hc0
    dsimp only at h
    split at h
    · simp_all
    · simp_all
    · next w1 ctx1 hm1 =>
      have hc1 := mkStdWsi_ok _ _ _ _ _ _ _ _ hm1
      subst hc1
      dsimp only at h
      split at h
      · simp_all
      · simp_all
      · next w2 ctx2 hm2 =>
        have hc2 := mkStdWsi_ok _ _ _ _ _ _ _ _ hm2
        subst hc2
        cases Except.ok.inj h
        exact ⟨rfl, rfl, rfl, rfl, rfl, rfl, rfl, rfl, rfl, rfl, rfl⟩

/-- Helper: a registration failure unwinds through bail3, removing exactly
the already-inserted wsis (restoring fds_count) and freeing all three
created wsis. -/
theorem phaseReg_error (os : SpawnOS) (op : Bool) (s : SpawnSt)
    (r : SpawnResult) (hs0 : s.lsp.stdwsi0.isSome = true)
    (hs1 : s.lsp.stdwsi1.isSome = true) (hs2 : s.lsp.stdwsi2.isSome = true)
    (h : phaseReg os op s = .error r) :
    r.parentRv = -1 ∧ r.child = none ∧ r.parentCalls = [] ∧
    r.childCalls = [] ∧ r.childCloses = [] ∧
    r.ctx.fds_count = s.ctx.fds_count ∧
    r.ctx.count_wsi_allocated = s.ctx.count_wsi_allocated - 3 ∧
    r.opened = s.opened ∧ r.factoryErrs = s.factoryErrs ∧
    r.closes = bail1closes s.lsp := by
  unfold phaseReg at h
  repeat' (first | (dsimp only at h) | (split at h) | (split_ifs at h))
  all_goals
    first
      | exact Except.noConfusion h
      | (cases Except.error.inj h
         refine ⟨rfl, rfl, rfl, rfl, rfl, ?_, ?_, rfl, rfl, rfl⟩ <;>
           (simp [mkBail3, mkBail2, mkBail1, wsiCount, insertWsiSocketIntoFds,
              hs0, hs1, hs2] <;> omega))

/-- Helper: the successful registration phase inserts exactly three wsis
into the fds table and leaves everything else alone. -/
theorem phaseReg_ok (os : SpawnOS) (op : Bool) (s s3 : SpawnSt)
    (h : phaseReg os op s = .ok s3) :
    s3.ctx = { s.ctx with fds_count := s.ctx.fds_count + 3 } ∧
    s3.opened = s.opened ∧ s3.factoryErrs = s.factoryErrs ∧
    pfSlots s3.lsp = pfSlots s.lsp ∧
    s3.lsp.stdwsi0.isSome = true ∧ s3.lsp.stdwsi1.isSome = true ∧
    s3.lsp.stdwsi2.isSome = true ∧
    s3.lsp.do_setpgrp = s.lsp.do_setpgrp ∧
    s3.lsp.child_pid = s.lsp.child_pid ∧
    s3.lsp.inOwner = s.lsp.inOwner ∧
    s3.lsp.sulScheduled = s.lsp.sulScheduled := by
  unfold phaseReg at h
  repeat' (first | (dsimp only at h) | (split at h) | (split_ifs at h))
  all_goals
    first
      | exact Except.noConfusion h
      | (cases Except.ok.inj h
         refine ⟨?_, rfl, rfl, rfl, rfl, rfl, rfl, rfl, rfl, rfl, rfl⟩
         rfl)

/-- Helper: a poll-interest failure unwinds through bail3 with n = 3. -/
theorem phasePoll_error (os : SpawnOS) (s : SpawnSt) (r : SpawnResult)
    (hs0 : s.lsp.stdwsi0.isSome = true) (hs1 : s.lsp.stdwsi1.isSome = true)
    (hs2 : s.lsp.stdwsi2.isSome = true)
    (h : phasePoll os s = .error r) :
    r.parentRv = -1 ∧ r.child = none ∧ r.parentCalls = [] ∧
    r.childCalls = [] ∧ r.childCloses = [] ∧
    r.ctx.fds_count = s.ctx.fds_count - 3 ∧
    r.ctx.count_wsi_allocated = s.ctx.count_wsi_allocated - 3 ∧
    r.opened = s.opened ∧ r.factoryErrs = s.factoryErrs ∧
    r.closes = bail1closes s.lsp := by
  unfold phasePoll at h
  split_ifs at h <;>
    (cases Except.error.inj h
     refine ⟨rfl, rfl, rfl, rfl, rfl, ?_, ?_, rfl, rfl, rfl⟩ <;>
       simp [mkBail3, mkBail2, mkBail1, wsiCount, hs0, hs1, hs2])

/-- Helper: the poll-interest phase changes nothing on success. -/
theorem phasePoll_ok (os : SpawnOS) (s s4 : SpawnSt)
    (h : phasePoll os s = .ok s4) : s4 = s := by
  unfold phasePoll at h
  split_ifs at h <;> simp_all

/-- Helper: filtering a list of nonnegative fds changes nothing. -/
theorem filter_nonneg_eq (l : List Int) (hl : ∀ fd ∈ l, 0 ≤ fd) :
    l.filter (fun fd => decide (0 ≤ fd)) = l :=
  List.filter_eq_self.mpr (fun a ha => decide_eq_true (hl a ha))

/-- Helper: every pre-fork failure of lws_spawn_piped (any result without a
child) returns -1 with the reactor counters restored, closes exactly the
fds it opened, closes none of them twice, and never took the noVhost
branch of the factory. -/
theorem spawn_fail_spec (os : SpawnOS) (ctx : LwsContext) (inp : SpawnIn)
    (lsp : LwsSpawnPiped) (r : SpawnResult)
    (hz0 : lsp.stdwsi0 = none) (hz1 : lsp.stdwsi1 = none)
    (hz2 : lsp.stdwsi2 = none)
    (hfresh : freshPipeFds os)
    (hr : lws_spawn_piped os ctx inp lsp = some r)
    (hfail : r.child = none) :
    r.parentRv = -1 ∧
    r.ctx.fds_count = ctx.fds_count ∧
    r.ctx.count_wsi_allocated = ctx.count_wsi_allocated ∧
    r.closes = r.opened ∧ r.opened.Nodup ∧
    FactoryErr.noVhost ∉ r.factoryErrs := by
  obtain ⟨hnd, hpos⟩ := hfresh
  unfold lws_spawn_piped at hr
  split at hr
  · exact Option.noConfusion hr
  next d hd =>
    try dsimp only at hr
    split at hr
    · cases Option.some.inj hr
      refine ⟨rfl, rfl, rfl, rfl, by simp, by simp⟩
    next pc hpc =>
      try dsimp only at hr
      split at hr
      · next rf hP =>
        obtain ⟨hrv, _, _, _, _, hctx, hfe, _, _, _, hco, hsub⟩ :=
          phasePipes_error os _ rf rfl rfl rfl rfl rfl rfl rfl hpos hP
        cases Option.some.inj hr
        exact ⟨hrv, by rw [hctx], by rw [hctx], hco, hsub.nodup hnd,
          by simp [hfe]⟩
      · next s1 hP =>
        obtain ⟨hctx1, hfe1, hop1, hpf1, hw01, hw11, hw21, hdo1, _, _, _⟩ :=
          phasePipes_ok os _ s1 hP
        split at hr
        · next rf hW =>
          obtain ⟨hrv, _, _, _, _, hfds, hcnt, hopd, hclo, hnv⟩ :=
            phaseWsi_error os pc s1 rf
              (by rw [hw01]; exact hz0) (by rw [hw11]; exact hz1)
              (by rw [hw21]; exact hz2)
              (by rw [hctx1]; simp [hd]) (by rw [hfe1]; simp)
              hW
          cases Option.some.inj hr
          refine ⟨hrv, ?_, ?_, ?_, ?_, hnv⟩
          · rw [hfds, hctx1]
          · rw [hcnt, hctx1]
          · rw [hclo, hopd, hop1, bail1closes_eq_filter, hpf1]
            simp only [List.nil_append]
            exact filter_nonneg_eq _ hpos
          · rw [hopd, hop1]
            simpa using hnd
        · next s2 hW =>
          obtain ⟨hctx2, hop2, hfe2, hpf2, hx0, hx1, hx2, hdo2, _, _, _⟩ :=
            phaseWsi_ok os pc s1 s2 hW
          split at hr
          · next rf hR =>
            obtain ⟨hrv, _, _, _, _, hfds, hcnt, hopd, hfe, hclo⟩ :=
              phaseReg_error os inp.opt_parent s2 rf hx0 hx1 hx2 hR
            cases Option.some.inj hr
            refine ⟨hrv, ?_, ?_, ?_, ?_, ?_⟩
            · rw [hfds, hctx2, hctx1]
            · rw [hcnt, hctx2, hctx1]; simp
            · rw [hclo, hopd, hop2, hop1, bail1closes_eq_filter, hpf2, hpf1]
              simp only [List.nil_append]
              exact filter_nonneg_eq _ hpos
            · rw [hopd, hop2, hop1]; simpa using hnd
            · rw [hfe, hfe2, hfe1]; simp
          · next s3 hR =>
            obtain ⟨hctx3, hop3, hfe3, hpf3, hy0, hy1, hy2, hdo3, _, _, _⟩ :=
              phaseReg_ok os inp.opt_parent s2 s3 hR
            split at hr
            · next rf hPo =>
              obtain ⟨hrv, _, _, _, _, hfds, hcnt, hopd, hfe, hclo⟩ :=
                phasePoll_error os s3 rf hy0 hy1 hy2 hPo
              cases Option.some.inj hr
              refine ⟨hrv, ?_, ?_, ?_, ?_, ?_⟩
              · rw [hfds, hctx3, hctx2, hctx1]; simp
              · rw [hcnt, hctx3, hctx2, hctx1]; simp
              · rw [hclo, hopd, hop3, hop2, hop1, bail1closes_eq_filter,
                  hpf3, hpf2, hpf1]
                simp only [List.nil_append]
                exact filter_nonneg_eq _ hpos
              · rw [hopd, hop3, hop2, hop1]; simpa using hnd
              · rw [hfe, hfe3, hfe2, hfe1]; simp
            · next s4 hPo =>
              have hs4 := phasePoll_ok os s3 s4 hPo
              subst hs4
              by_cases hfk : os.forkOk = true
              · rw [if_neg (by simp [hfk])] at hr
                cases Option.some.inj hr
                exact absurd hfail (by simp)
              · rw [if_pos (by simp [hfk])] at hr
                cases Option.some.inj hr
                refine ⟨rfl, ?_, ?_, ?_, ?_, ?_⟩
                · simp only [mkBail3, mkBail2, mkBail1]
                  rw [hctx3, hctx2, hctx1]; simp
                · simp only [mkBail3, mkBail2, mkBail1, wsiCount]
                  simp only [hy0, hy1, hy2]
                  rw [hctx3, hctx2, hctx1]
                  simp
                · simp only [mkBail3, mkBail2, mkBail1]
                  rw [show bail1closes { s4.lsp with child_pid := -1 } =
                      bail1closes s4.lsp from rfl,
                    bail1closes_eq_filter, hpf3, hpf2, hpf1, hop3, hop2, hop1]
                  simp only [List.nil_append]
                  exact filter_nonneg_eq _ hpos
                · simp only [mkBail3, mkBail2, mkBail1]
                  rw [hop3, hop2, hop1]; simpa using hnd
                · simp only [mkBail3, mkBail2, mkBail1]
                  rw [hfe3, hfe2, hfe1]; simp

/-- Helper: a pipe-phase failure result has no child. -/
theorem phasePipes_error_child (os : SpawnOS) (s : SpawnSt) (r : SpawnResult)
    (h : phasePipes os s = .error r) : r.child = none := by
  unfold phasePipes at h
  repeat' (first | (dsimp only at h) | (split at h))
  all_goals first
    | exact Except.noConfusion h
    | (cases Except.error.inj h; rfl)

/-- Helper: a stdwsi-phase failure result has no child. -/
theorem phaseWsi_error_child (os : SpawnOS) (pc : Nat) (s : SpawnSt)
    (r : SpawnResult) (h : phaseWsi os pc s = .error r) : r.child = none := by
  unfold phaseWsi at h
  repeat' (first | (dsimp only at h) | (split at h))
  all_goals first
    | exact Except.noConfusion h
    | (cases Except.error.inj h; rfl)

/-- Helper: a registration-phase failure result has no child. -/
theorem phaseReg_error_child (os : SpawnOS) (op : Bool) (s : SpawnSt)
    (r : SpawnResult) (h : phaseReg os op s = .error r) : r.child = none := by
  unfold phaseReg at h
  repeat' (first | (dsimp only at h) | (split at h) | (split_ifs at h))
  all_goals first
    | exact Except.noConfusion h
    | (cases Except.error.inj h; rfl)

/-- Helper: a poll-phase failure result has no child. -/
theorem phasePoll_error_child (os : SpawnOS) (s : SpawnSt) (r : SpawnResult)
    (h : phasePoll os s = .error r) : r.child = none := by
  unfold phasePoll at h
  split_ifs at h <;> (cases Except.error.inj h; rfl)

/-- Helper: every lws_spawn_piped call that simulates a child (fork reached
and succeeded) returned 0 in the parent, ran
prctl(PR_SET_PDEATHSIG)/setpgrp in BOTH processes, applied FD_CLOEXEC to
the three retained pipe ends and closed the three opposite ends in the
parent, gave the child the outcome childRun computes, and touched no
noVhost factory branch. -/
theorem spawn_success_spec (os : SpawnOS) (ctx : LwsContext) (inp : SpawnIn)
    (lsp : LwsSpawnPiped) (r : SpawnResult) (co : ChildOutcome)
    (hr : lws_spawn_piped os ctx inp lsp = some r)
    (hc : r.child = some co) :
    r.parentRv = 0 ∧ os.forkOk = true ∧
    r.lsp.do_setpgrp = lsp.do_setpgrp ∧
    co = (childRun os inp r.lsp).1 ∧
    r.parentCalls = sharedPostForkCalls lsp.do_setpgrp ++
      [PCall.cloexec r.lsp.pf01, PCall.cloexec r.lsp.pf10,
       PCall.cloexec r.lsp.pf20] ∧
    r.childCalls = sharedPostForkCalls lsp.do_setpgrp ++ [PCall.chdirTmp] ++
      (childRun os inp r.lsp).2.1 ∧
    r.childCloses = (childRun os inp r.lsp).2.2 ∧
    r.closes = [r.lsp.pf00, r.lsp.pf11, r.lsp.pf21] ∧
    FactoryErr.noVhost ∉ r.factoryErrs ∧
    r.lsp.child_pid = (os.forkPid : Int) + 1 := by
  unfold lws_spawn_piped at hr
  split at hr
  · exact Option.noConfusion hr
  next d hd =>
    try dsimp only at hr
    split at hr
    · cases Option.some.inj hr
      exact Option.noConfusion hc
    next pc hpc =>
      try dsimp only at hr
      split at hr
      · next rf hP =>
        have hchild := phasePipes_error_child os _ rf hP
        cases Option.some.inj hr
        rw [hchild] at hc
        exact Option.noConfusion hc
      · next s1 hP =>
        obtain ⟨hctx1, hfe1, hop1, hpf1, hw01, hw11, hw21, hdo1, _, _, _⟩ :=
          phasePipes_ok os _ s1 hP
        split at hr
        · next rf hW =>
          have hchild := phaseWsi_error_child os pc s1 rf hW
          cases Option.some.inj hr
          rw [hchild] at hc
          exact Option.noConfusion hc
        · next s2 hW =>
          obtain ⟨hctx2, hop2, hfe2, hpf2, hx0, hx1, hx2, hdo2, _, _, _⟩ :=
            phaseWsi_ok os pc s1 s2 hW
          split at hr
          · next rf hR =>
            have hchild := phaseReg_error_child os inp.opt_parent s2 rf hR
            cases Option.some.inj hr
            rw [hchild] at hc
            exact Option.noConfusion hc
          · next s3 hR =>
            obtain ⟨hctx3, hop3, hfe3, hpf3, hy0, hy1, hy2, hdo3, _, _, _⟩ :=
              phaseReg_ok os inp.opt_parent s2 s3 hR
            split at hr
            · next rf hPo =>
              have hchild := phasePoll_error_child os s3 rf hPo
              cases Option.some.inj hr
              rw [hchild] at hc
              exact Option.noConfusion hc
            · next s4 hPo =>
              have hs4 := phasePoll_ok os s3 s4 hPo
              subst hs4
              have hdo : s4.lsp.do_setpgrp = lsp.do_setpgrp := by
                rw [hdo3, hdo2, hdo1]
              by_cases hfk : os.forkOk = true
              · rw [if_neg (by simp [hfk])] at hr
                cases Option.some.inj hr
                refine ⟨rfl, hfk, hdo, (Option.some.inj hc).symm, ?_, ?_,
                  rfl, rfl, ?_, rfl⟩
                · rw [show (({ s4.lsp with
                      child_pid := (os.forkPid : Int) + 1,
                      inOwner := if inp.owner then true else s4.lsp.inOwner,
                      sulScheduled := if inp.timeout ≠ 0 then true
                        else s4.lsp.sulScheduled } : LwsSpawnPiped).do_setpgrp)
                      = lsp.do_setpgrp from hdo]
                · rw [show (({ s4.lsp with
                      child_pid := (os.forkPid : Int) + 1,
                      inOwner := if inp.owner then true else s4.lsp.inOwner,
                      sulScheduled := if inp.timeout ≠ 0 then true
                        else s4.lsp.sulScheduled } : LwsSpawnPiped).do_setpgrp)
                      = lsp.do_setpgrp from hdo]
                  exact rfl
                · rw [hfe3, hfe2, hfe1]; simp
              · rw [if_pos (by simp [hfk])] at hr
                cases Option.some.inj hr
                rw [show (mkBail3 3 { s4 with
                    lsp := { s4.lsp with child_pid := -1 } }).child = none
                  from rfl] at hc
                exact Option.noConfusion hc

/-- C2. Every spawn attempt that fails before duplication — on a
zero-initialized handle, with a kernel handing out fresh distinct pipe
fds — unwinds everything: the call returns -1, the per-thread fds count
and the live wsi counter are restored to their values before the call,
the fds closed are exactly the fds opened (so no raw fd stays open), and
no fd is closed twice. -/
theorem spawn_prefork_failure_unwinds (os : SpawnOS) (ctx : LwsContext)
    (inp : SpawnIn) (lsp : LwsSpawnPiped) (r : SpawnResult)
    (hz0 : lsp.stdwsi0 = none) (hz1 : lsp.stdwsi1 = none)
    (hz2 : lsp.stdwsi2 = none) (hfresh : freshPipeFds os)
    (hr : lws_spawn_piped os ctx inp lsp = some r)
    (hfail : r.child = none) :
    r.parentRv = -1 ∧
    r.ctx.fds_count = ctx.fds_count ∧
    r.ctx.count_wsi_allocated = ctx.count_wsi_allocated ∧
    r.closes = r.opened ∧ r.closes.Nodup := by
  obtain ⟨h1, h2, h3, h4, h5, _⟩ :=
    spawn_fail_spec os ctx inp lsp r hz0 hz1 hz2 hfresh hr hfail
  exact ⟨h1, h2, h3, h4, h4 ▸ h5⟩

/-- Witness for C2 at the fixture whose third fds-table insertion fails:
the two inserted descriptors are removed again, all three created wsis are
freed, and the six pipe fds 3..8 are closed exactly once each. -/
theorem spawn_prefork_failure_unwinds_witness :
    rInsFail.parentRv = -1 ∧
    rInsFail.ctx.fds_count = ctxOk.fds_count ∧
    rInsFail.ctx.count_wsi_allocated = ctxOk.count_wsi_allocated ∧
    rInsFail.closes = rInsFail.opened ∧ rInsFail.closes.Nodup :=
  spawn_prefork_failure_unwinds osInsFail ctxOk inpStd lspZero rInsFail
    rfl rfl rfl ⟨by decide, by decide⟩ rfl rfl

/-- Counterexample to C1 as stated.  When the first child-side dup2 fails,
the child does NOT self-terminate with the fixed status: goto bail3 sends
it through the shared unwind code and it returns -1 to the copy of the
caller running in the child process, while the parent call still returns
0. -/
theorem child_dup2_failure_returns_to_caller :
    ((lws_spawn_piped { osAllOk with dup2a := false } ctxOk inpStd
        lspZero).map (fun r => (r.parentRv, r.child))).getD (9, none) =
      (0, some (ChildOutcome.returnedToCaller (-1))) := by
  decide

/-- C1 as amended.  Whenever process duplication succeeds the parent call
returns 0 (that part of the claim holds); a child whose three
redirections succeed and whose program replacement returns control does
self-terminate with the fixed status 1; but a child-side redirection
failure is NOT handled that way: exactly when some dup2 fails, the child
falls into the shared bail path and returns -1 to the caller logic running
in the child process. -/
theorem spawn_child_failure_policy (os : SpawnOS) (ctx : LwsContext)
    (inp : SpawnIn) (lsp : LwsSpawnPiped) (r : SpawnResult)
    (co : ChildOutcome)
    (hr : lws_spawn_piped os ctx inp lsp = some r)
    (hc : r.child = some co) :
    r.parentRv = 0 ∧
    ((os.dup2a && os.dup2b && os.dup2c) = false ↔
      co = ChildOutcome.returnedToCaller (-1)) ∧
    ((os.dup2a && os.dup2b && os.dup2c) = true → os.execReturns = true →
      childEnvAtExec os.useVfork os.baseEnv inp.env_array ≠ none →
      co = ChildOutcome.exited 1) := by
  obtain ⟨hrv, _, _, hco, _, _, _, _, _, _⟩ :=
    spawn_success_spec os ctx inp lsp r co hr hc
  subst hco
  refine ⟨hrv, ?_, ?_⟩
  · cases hA : os.dup2a <;> cases hB : os.dup2b <;> cases hC : os.dup2c <;>
      simp [childRun, hA, hB, hC] <;> (split <;> simp) <;>
      (rename_i e he; split <;> simp)
  · intro hall hex henv
    have hA : os.dup2a = true := by
      cases hA : os.dup2a <;> simp [hA] at hall <;> rfl
    have hB : os.dup2b = true := by
      cases hB : os.dup2b <;> simp [hB] at hall <;> rfl
    have hC : os.dup2c = true := by
      cases hC : os.dup2c <;> simp [hC] at hall <;> rfl
    rcases hE : childEnvAtExec os.useVfork os.baseEnv inp.env_array with _ | e
    · exact absurd hE henv
    · simp [childRun, hA, hB, hC, hE, hex]

/-- Witness for C1 as amended: with every redirection succeeding and exec
returning control, the parent still returns 0 and the child exits with the
fixed status 1. -/
theorem spawn_child_failure_policy_witness :
    rExecFail.parentRv = 0 ∧
    ChildOutcome.exited 1 = ChildOutcome.exited 1 ∧
    rExecFail.child = some (ChildOutcome.exited 1) := by
  have h := spawn_child_failure_policy osExecFail ctxOk inpStd lspZero
    rExecFail (ChildOutcome.exited 1) rfl (by decide)
  exact ⟨h.1, h.2.2 (by decide) (by decide) (by decide), by decide⟩

/-- Counterexample to C9 as stated.  prctl(PR_SET_PDEATHSIG, SIGTERM) and
setpgrp() sit BEFORE the child_pid branch, so on a successful spawn with
group-kill configured the PARENT process itself executes both: its own
process-group membership and parent-death signal disposition change,
contradicting the claim that these are effects on the child only. -/
theorem parent_performs_setpgrp_and_prctl :
    PCall.setpgrpCall ∈ rAllOk.parentCalls ∧
    PCall.prctlPdeathsig ∈ rAllOk.parentCalls ∧
    rAllOk.parentRv = 0 := by
  decide

/-- C9 as amended.  On every spawn in which duplication succeeds, the
parent-death-signal arrangement and (when do_setpgrp is configured) the
process-group detachment are performed by BOTH the parent and the child —
the calls run between fork and the child_pid test — so the child does get
the intended treatment but the parent also applies it to itself; with
do_setpgrp clear neither process calls setpgrp. -/
theorem post_fork_calls_in_both_processes (os : SpawnOS) (ctx : LwsContext)
    (inp : SpawnIn) (lsp : LwsSpawnPiped) (r : SpawnResult)
    (co : ChildOutcome)
    (hr : lws_spawn_piped os ctx inp lsp = some r)
    (hc : r.child = some co) :
    PCall.prctlPdeathsig ∈ r.parentCalls ∧
    PCall.prctlPdeathsig ∈ r.childCalls ∧
    (lsp.do_setpgrp = true → PCall.setpgrpCall ∈ r.parentCalls ∧
      PCall.setpgrpCall ∈ r.childCalls) ∧
    (lsp.do_setpgrp = false → PCall.setpgrpCall ∉ r.parentCalls ∧
      PCall.setpgrpCall ∉ r.childCalls) := by
  obtain ⟨_, _, _, _, hpc, hcc, _, _, _, _⟩ :=
    spawn_success_spec os ctx inp lsp r co hr hc
  rw [hpc, hcc]
  refine ⟨by simp [sharedPostForkCalls], by simp [sharedPostForkCalls],
    ?_, ?_⟩
  · intro hdo
    constructor <;> simp [sharedPostForkCalls, hdo]
  · intro hdo
    have hnotin : PCall.setpgrpCall ∉ (childRun os inp r.lsp).2.1 := by
      unfold childRun
      split_ifs <;> (try split) <;> simp
    constructor
    · simp [sharedPostForkCalls, hdo]
    · simp [sharedPostForkCalls, hdo]
      exact fun hmem => absurd hmem hnotin

/-- Witness for C9 as amended at the all-success fixture (group-kill
configured): both processes perform prctl and setpgrp. -/
theorem post_fork_calls_in_both_processes_witness :
    PCall.prctlPdeathsig ∈ rAllOk.parentCalls ∧
    PCall.prctlPdeathsig ∈ rAllOk.childCalls ∧
    PCall.setpgrpCall ∈ rAllOk.parentCalls ∧
    PCall.setpgrpCall ∈ rAllOk.childCalls := by
  have h := post_fork_calls_in_both_processes osAllOk ctxOk inpStd lspZero
    rAllOk (ChildOutcome.execed
      [['A', '=', '1'], ['B', '=', '2'], ['C', '=', '3']]) rfl (by decide)
  exact ⟨h.1, h.2.1, (h.2.2.1 rfl).1, (h.2.2.1 rfl).2⟩

/-- Helper: a pipe-phase failure leaves the recorded factory errors
alone. -/
theorem phasePipes_error_fe (os : SpawnOS) (s : SpawnSt) (r : SpawnResult)
    (h : phasePipes os s = .error r) : r.factoryErrs = s.factoryErrs := by
  unfold phasePipes at h
  repeat' (first | (dsimp only at h) | (split at h))
  all_goals first
    | exact Except.noConfusion h
    | (cases Except.error.inj h; rfl)

/-- Helper: a registration-phase failure leaves the recorded factory
errors alone. -/
theorem phaseReg_error_fe (os : SpawnOS) (op : Bool) (s : SpawnSt)
    (r : SpawnResult) (h : phaseReg os op s = .error r) :
    r.factoryErrs = s.factoryErrs := by
  unfold phaseReg at h
  repeat' (first | (dsimp only at h) | (split at h) | (split_ifs at h))
  all_goals first
    | exact Except.noConfusion h
    | (cases Except.error.inj h; rfl)

/-- Helper: a poll-phase failure leaves the recorded factory errors
alone. -/
theorem phasePoll_error_fe (os : SpawnOS) (s : SpawnSt) (r : SpawnResult)
    (h : phasePoll os s = .error r) : r.factoryErrs = s.factoryErrs := by
  unfold phasePoll at h
  split_ifs at h <;> (cases Except.error.inj h; rfl)

/-- Helper: with a vhost present at entry, a stdwsi-phase failure never
records a noVhost factory error beyond those already present. -/
theorem phaseWsi_error_noVhost (os : SpawnOS) (pc : Nat) (s : SpawnSt)
    (r : SpawnResult)
    (hv : s.ctx.vhost_protocols ≠ none)
    (hnv : FactoryErr.noVhost ∉ s.factoryErrs)
    (h : phaseWsi os pc s = .error r) :
    FactoryErr.noVhost ∉ r.factoryErrs := by
  unfold phaseWsi at h
  split at h
  · next e hm0 =>
    cases Except.error.inj h
    have hne : e ≠ FactoryErr.noVhost :=
      basic_wsi_err_not_noVhost _ _ _ hv (mkStdWsi_inl _ _ _ _ _ _ _ hm0)
    simp only [mkBail2, mkBail1, List.mem_append, List.mem_singleton]
    rintro (hmem | hmem)
    · exact hnv hmem
    · exact hne hmem.symm
  · next w ctx1 hm0 =>
    cases Except.error.inj h
    simpa [mkBail2, mkBail1] using hnv
  · next w0 ctx0 hm0 =>
    have hc0 := mkStdWsi_ok _ _ _ _ _ _ _ _ hm0
    subst hc0
    dsimp only at h
    split at h
    · next e hm1 =>
      cases Except.error.inj h
      have hne : e ≠ FactoryErr.noVhost :=
        basic_wsi_err_not_noVhost _ _ _ (by simpa using hv)
          (mkStdWsi_inl _ _ _ _ _ _ _ hm1)
      simp only [mkBail2, mkBail1, List.mem_append, List.mem_singleton]
      rintro (hmem | hmem)
      · exact hnv hmem
      · exact hne hmem.symm
    · next w ctx2 hm1 =>
      cases Except.error.inj h
      simpa [mkBail2, mkBail1] using hnv
    · next w1 ctx1 hm1 =>
      have hc1 := mkStdWsi_ok _ _ _ _ _ _ _ _ hm1
      subst hc1
      dsimp only at h
      split at h
      · next e hm2 =>
        cases Except.error.inj h
        have hne : e ≠ FactoryErr.noVhost :=
          basic_wsi_err_not_noVhost _ _ _ (by simpa using hv)
            (mkStdWsi_inl _ _ _ _ _ _ _ hm2)
        simp only [mkBail2, mkBail1, List.mem_append, List.mem_singleton]
        rintro (hmem | hmem)
        · exact hnv hmem
        · exact hne hmem.symm
      · next w ctx3 hm2 =>
        cases Except.error.inj h
        simpa [mkBail2, mkBail1] using hnv
      · next w2 ctx2 hm2 =>
        exact absurd h (by simp)

/-- C10. The initializer of pcol dereferences vh->context->vhost_list
before any check, so the call avoids undefined behavior (returns a result
at all, in this embedding) exactly when the context has a registered
vhost; the null-vhost guard exists only inside the descriptor factory,
whose error branch is unreachable from a call that survived the initial
dereference: with a vhost present the factory never returns noVhost, and
no result of lws_spawn_piped ever records a noVhost factory failure. -/
theorem spawn_vhost_precondition (os : SpawnOS) (ctx : LwsContext)
    (inp : SpawnIn) (lsp : LwsSpawnPiped) :
    ((lws_spawn_piped os ctx inp lsp).isSome ↔ ctx.vhost_protocols.isSome) ∧
    (∀ m e, ctx.vhost_protocols ≠ none →
      lws_create_basic_wsi ctx m = .error e → e ≠ FactoryErr.noVhost) ∧
    (∀ r, lws_spawn_piped os ctx inp lsp = some r →
      FactoryErr.noVhost ∉ r.factoryErrs) := by
  refine ⟨?_, fun m e hv he => basic_wsi_err_not_noVhost ctx m e hv he, ?_⟩
  · cases hv : ctx.vhost_protocols with
    | none => simp [lws_spawn_piped, hv]
    | some d =>
      simp only [hv, Option.isSome_some, iff_true]
      unfold lws_spawn_piped
      rw [hv]
      dsimp only
      repeat' (first | (dsimp only) | split)
      all_goals simp
  · intro r hr
    unfold lws_spawn_piped at hr
    split at hr
    · exact Option.noConfusion hr
    next d hd =>
      try dsimp only at hr
      split at hr
      · cases Option.some.inj hr
        simp
      next pc hpc =>
        try dsimp only at hr
        split at hr
        · next rf hP =>
          have hfe := phasePipes_error_fe os _ rf hP
          cases Option.some.inj hr
          simp [hfe]
        · next s1 hP =>
          obtain ⟨hctx1, hfe1, _, _, _, _, _, _, _, _, _⟩ :=
            phasePipes_ok os _ s1 hP
          split at hr
          · next rf hW =>
            have hnv := phaseWsi_error_noVhost os pc s1 rf
              (by rw [hctx1]; simp [hd]) (by rw [hfe1]; simp) hW
            cases Option.some.inj hr
            exact hnv
          · next s2 hW =>
            obtain ⟨_, _, hfe2, _, _, _, _, _, _, _, _⟩ :=
              phaseWsi_ok os pc s1 s2 hW
            split at hr
            · next rf hR =>
              have hfe := phaseReg_error_fe os inp.opt_parent s2 rf hR
              cases Option.some.inj hr
              rw [hfe, hfe2, hfe1]
              simp
            · next s3 hR =>
              obtain ⟨_, _, hfe3, _, _, _, _, _, _, _, _⟩ :=
                phaseReg_ok os inp.opt_parent s2 s3 hR
              split at hr
              · next rf hPo =>
                have hfe := phasePoll_error_fe os s3 rf hPo
                cases Option.some.inj hr
                rw [hfe, hfe3, hfe2, hfe1]
                simp
              · next s4 hPo =>
                have hs4 := phasePoll_ok os s3 s4 hPo
                subst hs4
                by_cases hfk : os.forkOk = true
                · rw [if_neg (by simp [hfk])] at hr
                  cases Option.some.inj hr
                  show FactoryErr.noVhost ∉ s4.factoryErrs
                  rw [hfe3, hfe2, hfe1]
                  simp
                · rw [if_pos (by simp [hfk])] at hr
                  cases Option.some.inj hr
                  show FactoryErr.noVhost ∉
                    (mkBail3 3 { s4 with
                      lsp := { s4.lsp with child_pid := -1 } }).factoryErrs
                  simp only [mkBail3, mkBail2, mkBail1]
                  rw [hfe3, hfe2, hfe1]
                  simp

/-- Witness for C10 at the all-success fixture: the call yields a result
and records no noVhost factory failure. -/
theorem spawn_vhost_precondition_witness :
    (lws_spawn_piped osAllOk ctxOk inpStd lspZero).isSome ∧
    FactoryErr.noVhost ∉ rAllOk.factoryErrs := by
  have h := spawn_vhost_precondition osAllOk ctxOk inpStd lspZero
  exact ⟨h.1.mpr (by decide), h.2.2 rAllOk rfl⟩

/-- Counterexample to C3 as stated.  At capacity
(fds_count = fd_limit_per_thread - 1) the call does fail with the
ResourceExhausted condition (the factory records noSpace), but NOT before
any pipe is created: the pipe loop runs first, so all six pipe fds are
handed out (and closed again during unwind) before the capacity check
rejects the first descriptor. -/
theorem spawn_at_capacity_opens_pipes :
    rAtCapacity.parentRv = -1 ∧
    rAtCapacity.factoryErrs = [FactoryErr.noSpace] ∧
    rAtCapacity.opened = [3, 4, 5, 6, 7, 8] ∧
    rAtCapacity.opened ≠ [] ∧
    lws_spawn_piped osAllOk ctxFull inpStd lspZero = some rAtCapacity := by
  refine ⟨by decide, by decide, by decide, by decide, rfl⟩

/-- C3 as amended.  A spawn attempted while the per-thread table is at
capacity (with the protocol resolving and the kernel granting the pipes)
fails with ResourceExhausted — the descriptor factory rejects with
noSpace — but only AFTER creating all three pipes; the six fds handed out
are all closed again before the call returns -1, so nothing leaks. -/
theorem spawn_at_capacity_fails_after_pipes (os : SpawnOS)
    (ctx : LwsContext) (inp : SpawnIn) (lsp : LwsSpawnPiped)
    (r : SpawnResult) (d : Option Nat) (pc : Nat) (f0 f1 f2 : Int × Int)
    (hv : ctx.vhost_protocols = some d)
    (hpc : (if inp.pcon then os.protoLookup else d) = some pc)
    (hp0 : os.pipe0 = some f0) (hp1 : os.pipe1 = some f1)
    (hp2 : os.pipe2 = some f2)
    (hcap : atFdLimit ctx = true)
    (hfresh : freshPipeFds os)
    (hr : lws_spawn_piped os ctx inp lsp = some r) :
    r.parentRv = -1 ∧
    r.factoryErrs = [FactoryErr.noSpace] ∧
    r.opened = [f0.1, f0.2, f1.1, f1.2, f2.1, f2.2] ∧
    r.closes = r.opened := by
  obtain ⟨hnd, hpos⟩ := hfresh
  unfold lws_spawn_piped at hr
  split at hr
  · next heq => rw [hv] at heq; exact Option.noConfusion heq
  next d2 hd2 =>
    have hd2d : d2 = d := by
      rw [hv] at hd2; exact (Option.some.inj hd2).symm
    subst hd2d
    try dsimp only at hr
    split at hr
    · next heq => rw [hpc] at heq; exact Option.noConfusion heq
    next pc2 hpc2 =>
      have hpc2pc : pc2 = pc := by
        rw [hpc] at hpc2; exact (Option.some.inj hpc2).symm
      subst hpc2pc
      try dsimp only at hr
      split at hr
      · next rf hP =>
        simp [phasePipes, hp0, hp1, hp2] at hP
      · next s1 hP =>
        obtain ⟨hctx1, hfe1, hop1, hpf1, _, _, _, _, _, _, _⟩ :=
          phasePipes_ok os _ s1 hP
        have hwsi0 : mkStdWsi s1.ctx os.malloc0 os.fcntl0 0 pc2 s1.lsp.pf01 =
            .error (.inl FactoryErr.noSpace) := by
          unfold mkStdWsi lws_create_basic_wsi
          rw [if_neg (by rw [hctx1]; simp [hv]),
            if_pos (by rw [hctx1]; exact hcap)]
        split at hr
        · next rf hW =>
          unfold phaseWsi at hW
          rw [hwsi0] at hW
          have hrf := Except.error.inj hW
          cases hrf
          cases Option.some.inj hr
          refine ⟨rfl, ?_, ?_, ?_⟩
          · show (s1.factoryErrs ++ [FactoryErr.noSpace]) = _
            rw [hfe1]
            exact rfl
          · show s1.opened = _
            rw [hop1]
            simp [pipeOracleFds, hp0, hp1, hp2]
          · show bail1closes s1.lsp = s1.opened
            rw [bail1closes_eq_filter, hpf1, hop1]
            simp only [List.nil_append]
            exact filter_nonneg_eq _ hpos
        · next s2 hW =>
          unfold phaseWsi at hW
          rw [hwsi0] at hW
          exact Except.noConfusion hW

/-- Witness for C3 as amended at the capacity fixture. -/
theorem spawn_at_capacity_fails_after_pipes_witness :
    rAtCapacity.parentRv = -1 ∧
    rAtCapacity.factoryErrs = [FactoryErr.noSpace] ∧
    rAtCapacity.opened = [3, 4, 5, 6, 7, 8] ∧
    rAtCapacity.closes = rAtCapacity.opened :=
  spawn_at_capacity_fails_after_pipes osAllOk ctxFull inpStd lspZero
    rAtCapacity (some 7) 7 (3, 4) (5, 6) (7, 8) rfl rfl rfl rfl rfl
    (by decide) ⟨by decide, by decide⟩ rfl
